import Mathlib

/-!
# MemorySanitizer runtime: `compiler-rt/lib/msan/msan.cc`

A shallow embedding of the run-time library in `msan.cc` and a verification of
its poison-tracking contract.

## Modelling conventions

* Application memory and shadow memory are two byte maps, `State.mem` (keyed by
  application address) and `State.shadow` (keyed by shadow address).  The macro
  `MEM_TO_SHADOW` lives in `msan.h`, which is not part of the sources at hand;
  it is a field of the environment `Env`, so every result holds for every
  mapping.  The shadow of a buffer `[a, a + n)` is the run of `n` bytes that
  starts at `MEM_TO_SHADOW a`, which is how the `memset`/`memcpy` calls of the
  source address it (the offset-preserving reading of the mapping).
* `uptr`/`u64` values are natural numbers; unsigned integer arithmetic that the
  source performs on them (`size + extra_bytes`, `size << 16`) is reduced modulo
  `2 ^ 64`.  Pointer arithmetic (`(char*)mem + extra_bytes`, `p[-2]`) is exact
  arithmetic on addresses.  64-bit words are stored little-endian.
* The intercepted C library (`REAL(posix_memalign)`, `REAL(free)`) is external:
  the result of `posix_memalign` is supplied by the environment and every call
  to either function is appended to the log `State.heap`.
* `Die()` and a failed `CHECK` end the process: a function returns an
  `Outcome`, either `ret v s` (normal return) or `fatal c s` (process ended in
  state `s` for cause `c`).
* `InitShadow` and `InitializeInterceptors` are external; their calls are
  counted, and reserving the shadow region does not change the contents of the
  shadow byte map.
* The printing helpers `__msan_print_shadow`, `__msan_print_param_shadow` and
  the empty `__msan_break_optimization` have no effect on the state and are not
  embedded.
-/

namespace MSan

/-! ## Data model -/

/-- Calls made to the real (unintercepted) allocator, in program order. -/
inductive HeapCall where
  | posix_memalign (alignment size : Nat) (result : Option Nat)
  | free (ptr : Nat)
  deriving DecidableEq, Repr

/-- Diagnostics written by the runtime, in program order. -/
inductive Diag where
  | Printf (text : String)
  | GdbBackTrace
  | CatProcSelfMaps
  deriving DecidableEq, Repr

/-- Why the process ended. -/
inductive Fatal where
  | Die
  | CheckFailed
  deriving DecidableEq, Repr

/-- Everything outside `msan.cc` that its functions consult. -/
structure Env where
  /-- The macro `MEM_TO_SHADOW` of `msan.h`. -/
  MEM_TO_SHADOW : Nat → Nat
  /-- The text returned by `__msan::GetProcSelfMaps()`. -/
  GetProcSelfMaps : List Char
  /-- The result of `InitShadow(true, true, true)`. -/
  InitShadow : Bool
  /-- The behaviour of `REAL(posix_memalign)(&mem, alignment, size)`:
  `some m` is result `0` with `mem = m`, `none` is a non-zero result, which
  leaves `mem` as it was (`NULL`). -/
  posix_memalign : Nat → Nat → Option Nat
  /-- The address of the calling thread's `__msan_param_tls` array. -/
  param_tls_addr : Nat

/-- The globals of `msan.cc`, the two byte maps and the logs of external
effects. -/
structure State where
  msan_exit_code : Int
  msan_poison_in_malloc : Int
  msan_expect_umr : Int
  msan_expected_umr_found : Int
  msan_running_under_pin : Int
  msan_param_tls : Nat → Int
  main_thread_param_tls : Nat
  msan_inited : Int
  /-- Application memory, one byte per address. -/
  mem : Nat → Nat
  /-- Shadow memory, one byte per shadow address. -/
  shadow : Nat → Nat
  /-- Calls to the real allocator. -/
  heap : List HeapCall
  /-- Diagnostics printed so far. -/
  out : List Diag
  /-- Number of calls to `InitShadow`. -/
  InitShadow_calls : Nat
  /-- Number of calls to `InitializeInterceptors`. -/
  InitializeInterceptors_calls : Nat

/-- The result of running a function of the runtime. -/
inductive Outcome (α : Type) where
  | ret (val : α) (s : State)
  | fatal (cause : Fatal) (s : State)

/-- The state in which the call returned, or in which the process ended. -/
def Outcome.state {α : Type} : Outcome α → State
  | .ret _ s => s
  | .fatal _ s => s

/-- The returned value, when the call returned. -/
def Outcome.value {α : Type} : Outcome α → Option α
  | .ret v _ => some v
  | .fatal _ _ => none

/-- The cause of the process ending, when it did. -/
def Outcome.cause {α : Type} : Outcome α → Option Fatal
  | .ret _ _ => none
  | .fatal c _ => some c

/-- The globals as `msan.cc` initialises them, over given memory contents. -/
def State.initial (mem shadow : Nat → Nat) : State where
  msan_exit_code := 67
  msan_poison_in_malloc := 1
  msan_expect_umr := 0
  msan_expected_umr_found := 0
  msan_running_under_pin := 0
  msan_param_tls := fun _ => 0
  main_thread_param_tls := 0
  msan_inited := 0
  mem := mem
  shadow := shadow
  heap := []
  out := []
  InitShadow_calls := 0
  InitializeInterceptors_calls := 0

/-! ## Memory primitives -/

/-- `REAL(memset)(s, c, n)` on a byte map: `c` is converted to `unsigned char`.
The byte map is total, so the fill always completes: a fault of the real
`memset` on unmapped memory is not modelled, and what is proved of the state
after a fill holds of the real run only when that run gets past the fill. -/
def memset (m : Nat → Nat) (s : Nat) (c : Int) (n : Nat) : Nat → Nat :=
  fun x => if s ≤ x ∧ x < s + n then (c % 256).toNat else m x

/-- `REAL(memcpy)(dest, src, n)`: the bytes are read from the byte map `ms` and
written into the byte map `md` (both are the same map in every use). -/
def memcpy (md ms : Nat → Nat) (dest src n : Nat) : Nat → Nat :=
  fun x => if dest ≤ x ∧ x < dest + n then ms (src + (x - dest)) else md x

/-- Read of a `u64` at address `a` (little-endian). -/
def load64 (m : Nat → Nat) (a : Nat) : Nat :=
  m a % 256 + 256 * (m (a + 1) % 256 + 256 * (m (a + 2) % 256 + 256 * (m (a + 3) % 256
    + 256 * (m (a + 4) % 256 + 256 * (m (a + 5) % 256 + 256 * (m (a + 6) % 256
    + 256 * (m (a + 7) % 256)))))))

/-- Write of the `u64` value `v` at address `a` (little-endian). -/
def store64 (m : Nat → Nat) (a v : Nat) : Nat → Nat :=
  fun x => if a ≤ x ∧ x < a + 8 then v / 256 ^ (x - a) % 256 else m x

/-- `static const int kMsanMallocMagic = 0xCA4D;` -/
def kMsanMallocMagic : Nat := 0xCA4D

/-- Modelled from the spec: `internal_strstr` belongs to `sanitizer_common` and
is not among the sources; the spec describes host detection as scanning the
mapped-file list for a known host-binary marker, so this is the substring
test, `true` exactly when `internal_strstr(haystack, needle) != 0`. -/
def internal_strstr : List Char → List Char → Bool
  | [], needle => needle.isEmpty
  | c :: cs, needle => needle.isPrefixOf (c :: cs) || internal_strstr cs needle

/-! ## The functions of `msan.cc` -/

/-- `static bool IsRunningUnderPin()` -/
def IsRunningUnderPin (env : Env) : Bool :=
  internal_strstr env.GetProcSelfMaps "/pinbin".toList

/-- `void __msan_clear_on_return()` -/
def __msan_clear_on_return (s : State) : State :=
  { s with msan_param_tls := fun i => if i = 0 then 0 else s.msan_param_tls i }

/-- `void __msan_warning()` -/
def __msan_warning (s : State) : Outcome Unit :=
  if s.msan_expect_umr ≠ 0 then
    .ret () { s with msan_expected_umr_found := 1 }
  else
    let s := { s with out := s.out ++ [Diag.Printf "***UMR***\n", Diag.GdbBackTrace] }
    if s.msan_exit_code ≥ 0 then
      .fatal .Die { s with out := s.out ++ [Diag.Printf "Exiting\n"] }
    else
      .ret () s

/-- `void __msan_init()` -/
def __msan_init (env : Env) (s : State) : Outcome Unit :=
  if s.msan_inited ≠ 0 then .ret () s
  else
    let s := { s with main_thread_param_tls := env.param_tls_addr }
    let s := { s with msan_running_under_pin := if IsRunningUnderPin env then 1 else 0 }
    let s := __msan_clear_on_return s
    if s.msan_running_under_pin = 0 then
      let s := { s with InitShadow_calls := s.InitShadow_calls + 1 }
      if !env.InitShadow then
        .fatal .Die { s with out := s.out ++
          [Diag.Printf "FATAL: MemorySanitizer can not mmap the shadow memory\n",
           Diag.Printf "FATAL: Make sure to compile with -fPIE and to link with -pie.\n",
           Diag.CatProcSelfMaps] }
      else
        let s := { s with InitializeInterceptors_calls := s.InitializeInterceptors_calls + 1 }
        .ret () { s with msan_inited := 1 }
    else
      let s := { s with InitializeInterceptors_calls := s.InitializeInterceptors_calls + 1 }
      .ret () { s with msan_inited := 1 }

/-- `void __msan_unpoison(void *a, uptr size)` -/
def __msan_unpoison (env : Env) (a size : Nat) (s : State) : State :=
  { s with shadow := memset s.shadow (env.MEM_TO_SHADOW a) 0 size }

/-- `void __msan_poison(void *a, uptr size)` -/
def __msan_poison (env : Env) (a size : Nat) (s : State) : State :=
  { s with shadow := memset s.shadow (env.MEM_TO_SHADOW a) (-1) size }

/-- `void __msan_copy_poison(void *dst, const void *src, uptr size)` -/
def __msan_copy_poison (env : Env) (dst src size : Nat) (s : State) : State :=
  { s with shadow :=
      memcpy s.shadow s.shadow (env.MEM_TO_SHADOW dst) (env.MEM_TO_SHADOW src) size }

/-- `void __msan_set_exit_code(int exit_code)` -/
def __msan_set_exit_code (exit_code : Int) (s : State) : State :=
  { s with msan_exit_code := exit_code }

/-- `void __msan_set_expect_umr(int expect_umr)` -/
def __msan_set_expect_umr (expect_umr : Int) (s : State) : Outcome Unit :=
  if expect_umr ≠ 0 then
    .ret () { s with msan_expected_umr_found := 0, msan_expect_umr := expect_umr }
  else if s.msan_expected_umr_found = 0 then
    .fatal .Die { s with out := s.out ++
      [Diag.Printf "Expected UMR not found\n", Diag.GdbBackTrace] }
  else
    .ret () { s with msan_expect_umr := expect_umr }

/-- `int __msan_set_poison_in_malloc(int do_poison)`: the old value and the
new state. -/
def __msan_set_poison_in_malloc (do_poison : Int) (s : State) : Int × State :=
  let old := s.msan_poison_in_malloc
  (old, { s with msan_poison_in_malloc := do_poison })

/-- `int __msan_has_dynamic_component()` -/
def __msan_has_dynamic_component (s : State) : Int :=
  s.msan_running_under_pin

/-- The word `(size << 16) | kMsanMallocMagic` stored in `p[-2]`
(line 77 of `msan.cc`), in 64-bit arithmetic. -/
def header_word (size : Nat) : Nat :=
  ((size <<< 16) % 2 ^ 64) ||| kMsanMallocMagic

/-- The header overhead computed at lines 58 to 60 of `msan.cc`:
`extra_bytes = 2 * sizeof(u64*)`, raised to `alignment` when that is larger. -/
def extra_bytes (alignment : Nat) : Nat :=
  let extra_bytes := 2 * 8
  if alignment > extra_bytes then alignment else extra_bytes

/-- The block `if (res == 0) { ... }` of `MsanReallocate` (lines 74 to 86 of
`msan.cc`) for the raw pointer `m`: the new value of `mem` and the new state. -/
def MsanReallocate_new_block (env : Env) (size extra_bytes : Nat) (zeroise : Bool)
    (m : Nat) (s : State) : Nat × State :=
  let beg := m + extra_bytes
  let end_ := beg + size
  let s := { s with mem := store64 s.mem (beg - 16) (header_word size) }
  let s := { s with mem := store64 s.mem (beg - 8) m }
  let s :=
    if zeroise then { s with mem := memset s.mem beg 0 size }
    else if s.msan_poison_in_malloc ≠ 0 then __msan_poison env beg (end_ - beg) s
    else s
  (beg, s)

/-- The body of `if (old_size) { ... }` of `MsanReallocate` (lines 90 to 96 of
`msan.cc`). -/
def MsanReallocate_old_block (env : Env) (oldp size old_size real_oldp mem : Nat)
    (s : State) : State :=
  let min_size := if size < old_size then size else old_size
  let s :=
    if mem ≠ 0 then
      let s := { s with mem := memcpy s.mem s.mem mem oldp min_size }
      __msan_copy_poison env mem oldp min_size s
    else s
  let s := __msan_unpoison env oldp old_size s
  { s with heap := s.heap ++ [HeapCall.free real_oldp] }

/-- The part of `MsanReallocate` after the old header has been read
(lines 71 to 98 of `msan.cc`). -/
def MsanReallocate_body (env : Env) (oldp size alignment : Nat) (zeroise : Bool)
    (extra_bytes old_size real_oldp : Nat) (s : State) : Outcome Nat :=
  let res := env.posix_memalign alignment ((size + extra_bytes) % 2 ^ 64)
  let s := { s with heap := s.heap ++
    [HeapCall.posix_memalign alignment ((size + extra_bytes) % 2 ^ 64) res] }
  let (mem, s) : Nat × State :=
    match res with
    | some m => MsanReallocate_new_block env size extra_bytes zeroise m s
    | none => (0, s)
  if old_size ≠ 0 then
    .ret mem (MsanReallocate_old_block env oldp size old_size real_oldp mem s)
  else
    .ret mem s

/-- `void *MsanReallocate(void *oldp, uptr size, uptr alignment, bool zeroise)` -/
def MsanReallocate (env : Env) (oldp size alignment : Nat) (zeroise : Bool)
    (s : State) : Outcome Nat :=
  match __msan_init env s with
  | .fatal c s => .fatal c s
  | .ret _ s =>
    if s.msan_inited = 0 then .fatal .CheckFailed s
    else
      if oldp ≠ 0 then
        let old_size := load64 s.mem (oldp - 16) >>> 16
        if load64 s.mem (oldp - 16) &&& 0xffff ≠ kMsanMallocMagic then
          .fatal .CheckFailed s
        else
          let real_oldp := load64 s.mem (oldp - 8)
          MsanReallocate_body env oldp size alignment zeroise (extra_bytes alignment)
            old_size real_oldp s
      else
        MsanReallocate_body env oldp size alignment zeroise (extra_bytes alignment) 0 0 s

/-- `void MsanDeallocate(void *ptr)` -/
def MsanDeallocate (env : Env) (ptr : Nat) (s : State) : Outcome Unit :=
  match __msan_init env s with
  | .fatal c s => .fatal c s
  | .ret _ s =>
    let beg := ptr
    let size := load64 s.mem (beg - 16) >>> 16
    if load64 s.mem (beg - 16) &&& 0xffff ≠ kMsanMallocMagic then
      .fatal .CheckFailed s
    else
      let end_ := beg + size
      let s := __msan_unpoison env beg (end_ - beg) s
      .ret () { s with heap := s.heap ++ [HeapCall.free (load64 s.mem (beg - 8))] }

/-! ## Auxiliary definitions used in the statements -/

/-- The state of `MsanReallocate` right after its call of `posix_memalign`
(line 72 of `msan.cc`) with result `res`: the call is in the allocator log. -/
def logged (al n e : Nat) (res : Option Nat) (s : State) : State :=
  { s with heap := s.heap ++ [HeapCall.posix_memalign al ((n + e) % 2 ^ 64) res] }

/-- A sample environment: the shadow address clears bit 46 of the application
address, shadow reservation succeeds, no Pin is attached, and the allocator
answers a request of `size` bytes with the raw block at
`0x7f0000000000 + 0x1000 * size`. -/
def sampleEnv : Env where
  MEM_TO_SHADOW := fun a => a % 2 ^ 46 + a / 2 ^ 47 * 2 ^ 47
  GetProcSelfMaps := "00400000-00401000 r-xp 00000000 08:01 1234 /usr/bin/app\n".toList
  InitShadow := true
  posix_memalign := fun _ size => some (0x7f0000000000 + 0x1000 * size)
  param_tls_addr := 0x7f0000000100

/-- A sample start state: the initial globals, application memory filled with
`0xAA` and a clean shadow. -/
def sampleState : State := State.initial (fun _ => 0xAA) (fun _ => 0)

/-- The sample state after `malloc(4)` (a fresh allocation of four bytes, which
returns `0x7f0000014010`) and `__msan_unpoison` of the block's first two bytes. -/
def liveBlockState : State :=
  __msan_unpoison sampleEnv 0x7f0000014010 2
    (MsanReallocate sampleEnv 0 4 8 false sampleState).state

/-- The sample state after `malloc(0)`: a fresh allocation of zero bytes, which
returns `0x7f0000010010` with raw pointer `0x7f0000010000`. -/
def zeroBlockState : State :=
  (MsanReallocate sampleEnv 0 0 8 false sampleState).state

/-- The sample state after a fresh allocation of zero bytes at alignment 32,
which returns `0x7f0000020020` with raw pointer `0x7f0000020000`. -/
def zeroBlockState32 : State :=
  (MsanReallocate sampleEnv 0 0 32 false sampleState).state

/-- The start and the length of the range that lines 80 to 85 of `msan.cc`
hand to `REAL(memset)` (with `zeroise`) or to `__msan_poison` (otherwise): the
pointer `beg = mem + extra_bytes` and the length `end - beg` with
`end = beg + size`. -/
def fill_range (size extra_bytes m : Nat) : Nat × Nat :=
  let beg := m + extra_bytes
  let end_ := beg + size
  (beg, end_ - beg)

/-- The sample environment with an allocator that reports failure. -/
def failingEnv : Env :=
  { sampleEnv with posix_memalign := fun _ _ => none }

/-- The sample start state after `__msan_set_poison_in_malloc(0)`. -/
def noPoisonState : State := (__msan_set_poison_in_malloc 0 sampleState).2

/-- Sequencing of two calls: the second one runs only when the first returned. -/
def Outcome.andThen {α β : Type} (o : Outcome α) (f : α → State → Outcome β) :
    Outcome β :=
  match o with
  | .ret v s => f v s
  | .fatal c s => .fatal c s

/-- The sequence of `k` calls of `__msan_warning()`, one after the other. -/
def warnings : Nat → State → Outcome Unit
  | 0, s => .ret () s
  | k + 1, s => (__msan_warning s).andThen (fun _ => warnings k)

/-- The value of `old_size` after lines 61 to 70 of `msan.cc`, read from the
memory `mem`. -/
def old_size_of (mem : Nat → Nat) (oldp : Nat) : Nat :=
  if oldp ≠ 0 then load64 mem (oldp - 16) >>> 16 else 0

/-- The value of `real_oldp` after lines 61 to 70 of `msan.cc`, read from the
memory `mem`. -/
def real_oldp_of (mem : Nat → Nat) (oldp : Nat) : Nat :=
  if oldp ≠ 0 then load64 mem (oldp - 8) else 0

/-! ## Basic facts about the memory primitives -/

theorem memset_inside (m : Nat → Nat) (s : Nat) (c : Int) (n i : Nat) (h : i < n) :
    memset m s c n (s + i) = (c % 256).toNat := by
  simp [memset, h]

theorem memset_outside (m : Nat → Nat) (s : Nat) (c : Int) (n x : Nat)
    (h : ¬ (s ≤ x ∧ x < s + n)) : memset m s c n x = m x := by
  simp only [memset, if_neg h]

theorem memset_zero_size (m : Nat → Nat) (s : Nat) (c : Int) : memset m s c 0 = m := by
  funext x
  simp [memset]

theorem memcpy_inside (md ms : Nat → Nat) (dest src n i : Nat) (h : i < n) :
    memcpy md ms dest src n (dest + i) = ms (src + i) := by
  simp [memcpy, h]

theorem memcpy_outside (md ms : Nat → Nat) (dest src n x : Nat)
    (h : ¬ (dest ≤ x ∧ x < dest + n)) : memcpy md ms dest src n x = md x := by
  simp only [memcpy, if_neg h]

theorem store64_outside (m : Nat → Nat) (a v x : Nat) (h : ¬ (a ≤ x ∧ x < a + 8)) :
    store64 m a v x = m x := by
  simp only [store64, if_neg h]

/-- A `u64` read depends only on the eight bytes it covers. -/
theorem load64_congr (m1 m2 : Nat → Nat) (a : Nat)
    (h : ∀ x, a ≤ x → x < a + 8 → m1 x = m2 x) : load64 m1 a = load64 m2 a := by
  unfold load64
  rw [h a (by omega) (by omega), h (a + 1) (by omega) (by omega),
    h (a + 2) (by omega) (by omega), h (a + 3) (by omega) (by omega),
    h (a + 4) (by omega) (by omega), h (a + 5) (by omega) (by omega),
    h (a + 6) (by omega) (by omega), h (a + 7) (by omega) (by omega)]

/-- Reading back a stored `u64` gives the value in 64-bit arithmetic. -/
theorem load64_store64 (m : Nat → Nat) (a v : Nat) :
    load64 (store64 m a v) a = v % 2 ^ 64 := by
  have e0 : store64 m a v a = v % 256 := by simp [store64]
  have e1 : store64 m a v (a + 1) = v / 256 % 256 := by simp [store64]
  have e2 : store64 m a v (a + 2) = v / 256 ^ 2 % 256 := by simp [store64]
  have e3 : store64 m a v (a + 3) = v / 256 ^ 3 % 256 := by simp [store64]
  have e4 : store64 m a v (a + 4) = v / 256 ^ 4 % 256 := by simp [store64]
  have e5 : store64 m a v (a + 5) = v / 256 ^ 5 % 256 := by simp [store64]
  have e6 : store64 m a v (a + 6) = v / 256 ^ 6 % 256 := by simp [store64]
  have e7 : store64 m a v (a + 7) = v / 256 ^ 7 % 256 := by simp [store64]
  unfold load64
  rw [e0, e1, e2, e3, e4, e5, e6, e7]
  norm_num
  omega

/-- A header word is the size modulo `2 ^ 48` above the sixteen magic bits. -/
theorem header_word_eq (size : Nat) :
    header_word size = 2 ^ 16 * (size % 2 ^ 48) + kMsanMallocMagic := by
  have h1 : (size <<< 16) % 2 ^ 64 = 2 ^ 16 * (size % 2 ^ 48) := by
    rw [Nat.shiftLeft_eq]
    omega
  have h2 : kMsanMallocMagic < 2 ^ 16 := by decide
  unfold header_word
  rw [h1, ← Nat.mul_add_lt_is_or h2]

/-- The low sixteen bits of a header word are the magic. -/
theorem header_word_magic (size : Nat) : header_word size &&& 0xffff = kMsanMallocMagic := by
  have h : (0xffff : Nat) = 2 ^ 16 - 1 := by norm_num
  rw [h, Nat.and_pow_two_sub_one_eq_mod, header_word_eq]
  simp only [kMsanMallocMagic]
  omega

/-- The size field of a header word is the size modulo `2 ^ 48`. -/
theorem header_word_size (size : Nat) : header_word size >>> 16 = size % 2 ^ 48 := by
  rw [Nat.shiftRight_eq_div_pow, header_word_eq]
  simp only [kMsanMallocMagic]
  omega

theorem header_word_lt (size : Nat) : header_word size < 2 ^ 64 := by
  rw [header_word_eq]
  simp only [kMsanMallocMagic]
  omega

/-! ## Initialisation, as far as the allocator depends on it -/

/-- `__msan_init` either returns with the runtime initialised or ends the
process in `Die()`; it touches neither memory, nor shadow, nor the real
allocator, nor the malloc-poisoning flag. -/
theorem init_cases (env : Env) (s : State) :
    (∃ s1, __msan_init env s = .ret () s1 ∧ s1.msan_inited ≠ 0 ∧ s1.mem = s.mem ∧
      s1.shadow = s.shadow ∧ s1.heap = s.heap ∧
      s1.msan_poison_in_malloc = s.msan_poison_in_malloc) ∨
    (∃ s1, __msan_init env s = .fatal .Die s1 ∧ s1.mem = s.mem ∧
      s1.shadow = s.shadow ∧ s1.heap = s.heap ∧ s.msan_inited = 0) := by
  unfold __msan_init
  by_cases h0 : s.msan_inited ≠ 0
  · left
    exact ⟨s, by simp [h0], h0, rfl, rfl, rfl, rfl⟩
  · simp only [h0, if_false]
    by_cases hp : IsRunningUnderPin env = true
    · left
      simp [hp, __msan_clear_on_return]
    · by_cases hs : env.InitShadow = true
      · left
        simp [hp, hs, __msan_clear_on_return]
      · right
        simp only [ne_eq, Decidable.not_not] at h0
        simp [hp, hs, h0, __msan_clear_on_return]

/-- An initialised runtime is left alone by `__msan_init`. -/
theorem init_inited (env : Env) (s : State) (h : s.msan_inited ≠ 0) :
    __msan_init env s = .ret () s := by
  simp [__msan_init, h]

/-! ## The blocks of `MsanReallocate` -/

theorem new_block_fst (env : Env) (n e : Nat) (z : Bool) (m : Nat) (s : State) :
    (MsanReallocate_new_block env n e z m s).1 = m + e := rfl

theorem new_block_shadow (env : Env) (n e : Nat) (z : Bool) (m : Nat) (s : State) :
    (MsanReallocate_new_block env n e z m s).2.shadow =
      if z = true then s.shadow
      else if s.msan_poison_in_malloc ≠ 0 then
        memset s.shadow (env.MEM_TO_SHADOW (m + e)) (-1) n
      else s.shadow := by
  unfold MsanReallocate_new_block
  by_cases hz : z = true
  · simp [hz]
  · by_cases hf : s.msan_poison_in_malloc = 0
    · simp [hz, hf]
    · simp [hz, hf, __msan_poison]

theorem new_block_mem (env : Env) (n e : Nat) (z : Bool) (m : Nat) (s : State) :
    (MsanReallocate_new_block env n e z m s).2.mem =
      if z = true then
        memset (store64 (store64 s.mem (m + e - 16) (header_word n)) (m + e - 8) m) (m + e) 0 n
      else store64 (store64 s.mem (m + e - 16) (header_word n)) (m + e - 8) m := by
  unfold MsanReallocate_new_block
  by_cases hz : z = true
  · simp [hz]
  · by_cases hf : s.msan_poison_in_malloc = 0
    · simp [hz, hf]
    · simp [hz, hf, __msan_poison]

theorem new_block_heap (env : Env) (n e : Nat) (z : Bool) (m : Nat) (s : State) :
    (MsanReallocate_new_block env n e z m s).2.heap = s.heap := by
  unfold MsanReallocate_new_block
  by_cases hz : z = true
  · simp [hz]
  · by_cases hf : s.msan_poison_in_malloc = 0
    · simp [hz, hf]
    · simp [hz, hf, __msan_poison]

theorem old_block_shadow (env : Env) (oldp n os ro mem : Nat) (s : State) :
    (MsanReallocate_old_block env oldp n os ro mem s).shadow =
      memset (if mem ≠ 0 then
          memcpy s.shadow s.shadow (env.MEM_TO_SHADOW mem) (env.MEM_TO_SHADOW oldp)
            (if n < os then n else os)
        else s.shadow) (env.MEM_TO_SHADOW oldp) 0 os := by
  unfold MsanReallocate_old_block
  by_cases hm : mem = 0
  · simp [hm, __msan_unpoison]
  · simp [hm, __msan_unpoison, __msan_copy_poison]

theorem old_block_mem (env : Env) (oldp n os ro mem : Nat) (s : State) :
    (MsanReallocate_old_block env oldp n os ro mem s).mem =
      if mem ≠ 0 then memcpy s.mem s.mem mem oldp (if n < os then n else os) else s.mem := by
  unfold MsanReallocate_old_block
  by_cases hm : mem = 0
  · simp [hm, __msan_unpoison]
  · simp [hm, __msan_unpoison, __msan_copy_poison]

theorem old_block_heap (env : Env) (oldp n os ro mem : Nat) (s : State) :
    (MsanReallocate_old_block env oldp n os ro mem s).heap = s.heap ++ [HeapCall.free ro] := by
  unfold MsanReallocate_old_block
  by_cases hm : mem = 0
  · simp [hm, __msan_unpoison]
  · simp [hm, __msan_unpoison, __msan_copy_poison]

theorem body_some (env : Env) (oldp n al : Nat) (z : Bool) (e os ro m : Nat) (s : State)
    (h : env.posix_memalign al ((n + e) % 2 ^ 64) = some m) :
    MsanReallocate_body env oldp n al z e os ro s =
      if os ≠ 0 then
        .ret (m + e) (MsanReallocate_old_block env oldp n os ro (m + e)
          (MsanReallocate_new_block env n e z m (logged al n e (some m) s)).2)
      else .ret (m + e) (MsanReallocate_new_block env n e z m (logged al n e (some m) s)).2 := by
  unfold MsanReallocate_body
  simp only [h]
  rfl

theorem body_none (env : Env) (oldp n al : Nat) (z : Bool) (e os ro : Nat) (s : State)
    (h : env.posix_memalign al ((n + e) % 2 ^ 64) = none) :
    MsanReallocate_body env oldp n al z e os ro s =
      if os ≠ 0 then
        .ret 0 (MsanReallocate_old_block env oldp n os ro 0 (logged al n e none s))
      else .ret 0 (logged al n e none s) := by
  unfold MsanReallocate_body
  simp only [h]
  rfl

theorem extra_bytes_ge (al : Nat) : 16 ≤ extra_bytes al := by
  simp only [extra_bytes]
  split <;> omega


/-! ## Poison state primitives -/

/-- C1: after `__msan_unpoison(a, n)` each of the `n` shadow bytes starting at
`MEM_TO_SHADOW(a)` is `0x00`, after `__msan_poison(a, n)` each of them is
`0xFF`; in both cases every shadow byte outside that range keeps its value,
and with `n = 0` the whole shadow is unchanged. -/
theorem C1_poison_unpoison_range (env : Env) (a n : Nat) (s : State) :
    ((∀ i, i < n → (__msan_unpoison env a n s).shadow (env.MEM_TO_SHADOW a + i) = 0x00) ∧
     (∀ x, ¬ (env.MEM_TO_SHADOW a ≤ x ∧ x < env.MEM_TO_SHADOW a + n) →
        (__msan_unpoison env a n s).shadow x = s.shadow x)) ∧
    ((∀ i, i < n → (__msan_poison env a n s).shadow (env.MEM_TO_SHADOW a + i) = 0xFF) ∧
     (∀ x, ¬ (env.MEM_TO_SHADOW a ≤ x ∧ x < env.MEM_TO_SHADOW a + n) →
        (__msan_poison env a n s).shadow x = s.shadow x)) ∧
    ((__msan_unpoison env a 0 s).shadow = s.shadow ∧
     (__msan_poison env a 0 s).shadow = s.shadow) := by
  refine ⟨⟨?_, ?_⟩, ⟨?_, ?_⟩, ?_, ?_⟩
  · intro i hi
    simp only [__msan_unpoison]
    rw [memset_inside _ _ _ _ _ hi]
    decide
  · intro x hx
    simp only [__msan_unpoison]
    exact memset_outside _ _ _ _ _ hx
  · intro i hi
    simp only [__msan_poison]
    rw [memset_inside _ _ _ _ _ hi]
    decide
  · intro x hx
    simp only [__msan_poison]
    exact memset_outside _ _ _ _ _ hx
  · simp only [__msan_unpoison, memset_zero_size]
  · simp only [__msan_poison, memset_zero_size]

/-! ## `MsanReallocate` and `MsanDeallocate` after initialisation -/

theorem MsanReallocate_fresh (env : Env) (n al : Nat) (z : Bool) (s s1 : State)
    (h1 : __msan_init env s = .ret () s1) (hin : s1.msan_inited ≠ 0) :
    MsanReallocate env 0 n al z s =
      MsanReallocate_body env 0 n al z (extra_bytes al) 0 0 s1 := by
  unfold MsanReallocate
  rw [h1]
  simp [hin]

theorem MsanReallocate_old (env : Env) (oldp n al : Nat) (z : Bool) (s s1 : State)
    (h1 : __msan_init env s = .ret () s1) (hin : s1.msan_inited ≠ 0) (hold : oldp ≠ 0)
    (hmagic : load64 s1.mem (oldp - 16) &&& 0xffff = kMsanMallocMagic) :
    MsanReallocate env oldp n al z s =
      MsanReallocate_body env oldp n al z (extra_bytes al)
        (load64 s1.mem (oldp - 16) >>> 16) (load64 s1.mem (oldp - 8)) s1 := by
  unfold MsanReallocate
  rw [h1]
  simp [hin, hold, hmagic]

theorem MsanReallocate_bad_magic (env : Env) (oldp n al : Nat) (z : Bool) (s s1 : State)
    (h1 : __msan_init env s = .ret () s1) (hin : s1.msan_inited ≠ 0) (hold : oldp ≠ 0)
    (hmagic : load64 s1.mem (oldp - 16) &&& 0xffff ≠ kMsanMallocMagic) :
    MsanReallocate env oldp n al z s = .fatal .CheckFailed s1 := by
  unfold MsanReallocate
  rw [h1]
  simp [hin, hold, hmagic]

theorem MsanReallocate_init_fatal (env : Env) (oldp n al : Nat) (z : Bool) (s s1 : State)
    (c : Fatal) (h1 : __msan_init env s = .fatal c s1) :
    MsanReallocate env oldp n al z s = .fatal c s1 := by
  unfold MsanReallocate
  rw [h1]

theorem MsanDeallocate_ok (env : Env) (ptr : Nat) (s s1 : State)
    (h1 : __msan_init env s = .ret () s1)
    (hmagic : load64 s1.mem (ptr - 16) &&& 0xffff = kMsanMallocMagic) :
    MsanDeallocate env ptr s =
      .ret () { __msan_unpoison env ptr (load64 s1.mem (ptr - 16) >>> 16) s1 with
        heap := s1.heap ++ [HeapCall.free (load64 s1.mem (ptr - 8))] } := by
  unfold MsanDeallocate
  rw [h1]
  simp [hmagic, __msan_unpoison]

theorem MsanDeallocate_bad_magic (env : Env) (ptr : Nat) (s s1 : State)
    (h1 : __msan_init env s = .ret () s1)
    (hmagic : load64 s1.mem (ptr - 16) &&& 0xffff ≠ kMsanMallocMagic) :
    MsanDeallocate env ptr s = .fatal .CheckFailed s1 := by
  unfold MsanDeallocate
  rw [h1]
  simp [hmagic]

theorem MsanDeallocate_init_fatal (env : Env) (ptr : Nat) (s s1 : State)
    (c : Fatal) (h1 : __msan_init env s = .fatal c s1) :
    MsanDeallocate env ptr s = .fatal c s1 := by
  unfold MsanDeallocate
  rw [h1]

/-- A call of `MsanReallocate` that returns a non-null pointer got a raw
pointer `m` from `posix_memalign`, and the pointer is `m + extra_bytes`. -/
theorem body_value_ne_zero (env : Env) (oldp n al : Nat) (z : Bool) (e os ro p : Nat)
    (s : State) (h : (MsanReallocate_body env oldp n al z e os ro s).value = some p)
    (hp : p ≠ 0) :
    ∃ m, env.posix_memalign al ((n + e) % 2 ^ 64) = some m ∧ p = m + e := by
  cases hres : env.posix_memalign al ((n + e) % 2 ^ 64) with
  | none =>
    rw [body_none _ _ _ _ _ _ _ _ _ hres] at h
    split at h <;> simp [Outcome.value] at h <;> exact absurd h.symm hp
  | some m =>
    rw [body_some _ _ _ _ _ _ _ _ _ _ hres] at h
    refine ⟨m, rfl, ?_⟩
    split at h <;> simp [Outcome.value] at h <;> exact h.symm

/-- A call of `MsanReallocate` that returns went through `__msan_init`. -/
theorem MsanReallocate_value_init (env : Env) (oldp n al : Nat) (z : Bool) (s : State)
    (p : Nat) (h : (MsanReallocate env oldp n al z s).value = some p) :
    ∃ s1, __msan_init env s = .ret () s1 ∧ s1.msan_inited ≠ 0 ∧ s1.mem = s.mem ∧
      s1.shadow = s.shadow ∧ s1.heap = s.heap ∧
      s1.msan_poison_in_malloc = s.msan_poison_in_malloc := by
  rcases init_cases env s with ⟨s1, h1, hrest⟩ | ⟨s1, h1, _⟩
  · exact ⟨s1, h1, hrest⟩
  · rw [MsanReallocate_init_fatal _ _ _ _ _ _ _ _ h1] at h
    simp [Outcome.value] at h

/-- The state after a successful fresh allocation. -/
theorem MsanReallocate_fresh_state (env : Env) (n al p : Nat) (z : Bool) (s : State)
    (h : (MsanReallocate env 0 n al z s).value = some p) (hp : p ≠ 0) :
    ∃ s1 m, __msan_init env s = .ret () s1 ∧ s1.msan_inited ≠ 0 ∧ s1.mem = s.mem ∧
      s1.shadow = s.shadow ∧ s1.heap = s.heap ∧
      s1.msan_poison_in_malloc = s.msan_poison_in_malloc ∧
      env.posix_memalign al ((n + extra_bytes al) % 2 ^ 64) = some m ∧
      p = m + extra_bytes al ∧
      (MsanReallocate env 0 n al z s).state =
        (MsanReallocate_new_block env n (extra_bytes al) z m
          (logged al n (extra_bytes al) (some m) s1)).2 := by
  obtain ⟨s1, h1, hin, hm, hsh, hh, hf⟩ := MsanReallocate_value_init _ _ _ _ _ _ _ h
  rw [MsanReallocate_fresh _ _ _ _ _ _ h1 hin] at h ⊢
  obtain ⟨m, hres, hpm⟩ := body_value_ne_zero _ _ _ _ _ _ _ _ _ _ h hp
  refine ⟨s1, m, h1, hin, hm, hsh, hh, hf, hres, hpm, ?_⟩
  rw [body_some _ _ _ _ _ _ _ _ _ _ hres]
  simp [Outcome.state]

/-- C2: a fresh allocation (`oldp = NULL`, `zeroise = false`) that succeeds with
user pointer `p` and size `n` leaves all `n` shadow bytes of `[p, p + n)` at
`0xFF` when the poison-in-malloc flag is non-zero; when the flag is `0`, as it
is after `__msan_set_poison_in_malloc(0)`, the whole shadow is what it was
before the allocation. -/
theorem C2_fresh_allocation_poison (env : Env) (n al p : Nat) (s : State)
    (h : (MsanReallocate env 0 n al false s).value = some p) (hp : p ≠ 0) :
    (s.msan_poison_in_malloc ≠ 0 →
      ∀ i, i < n →
        (MsanReallocate env 0 n al false s).state.shadow (env.MEM_TO_SHADOW p + i) = 0xFF) ∧
    (s.msan_poison_in_malloc = 0 →
      (MsanReallocate env 0 n al false s).state.shadow = s.shadow) ∧
    (∀ s0, s = (__msan_set_poison_in_malloc 0 s0).2 →
      (MsanReallocate env 0 n al false s).state.shadow = s0.shadow) := by
  obtain ⟨s1, m, -, -, -, hsh, -, hf, -, hpm, hst⟩ :=
    MsanReallocate_fresh_state _ _ _ _ _ _ h hp
  have hshadow := new_block_shadow env n (extra_bytes al) false m
    (logged al n (extra_bytes al) (some m) s1)
  rw [← hst] at hshadow
  have hflag : (logged al n (extra_bytes al) (some m) s1).msan_poison_in_malloc =
      s.msan_poison_in_malloc := hf
  have hlsh : (logged al n (extra_bytes al) (some m) s1).shadow = s.shadow := hsh
  rw [hflag, hlsh] at hshadow
  have hzero : s.msan_poison_in_malloc = 0 →
      (MsanReallocate env 0 n al false s).state.shadow = s.shadow := by
    intro h0
    rw [hshadow]
    simp [h0]
  refine ⟨?_, hzero, ?_⟩
  · intro hne i hi
    rw [hshadow, hpm]
    simp only [hne, Bool.false_eq_true, if_false, ne_eq, not_false_eq_true, if_true]
    rw [memset_inside _ _ _ _ _ hi]
    decide
  · intro s0 hs0
    have h0 : s.msan_poison_in_malloc = 0 := by rw [hs0]; rfl
    rw [hzero h0, hs0]
    rfl

theorem C2_fresh_allocation_poison_witness :
    ((MsanReallocate sampleEnv 0 4 8 false sampleState).value = some 0x7f0000014010 ∧
      (0x7f0000014010 : Nat) ≠ 0 ∧ sampleState.msan_poison_in_malloc ≠ 0) ∧
    ∀ i, i < 4 → (MsanReallocate sampleEnv 0 4 8 false sampleState).state.shadow
        (sampleEnv.MEM_TO_SHADOW 0x7f0000014010 + i) = 0xFF :=
  ⟨⟨by decide, by decide, by decide⟩,
   (C2_fresh_allocation_poison sampleEnv 4 8 0x7f0000014010 sampleState
     (by decide) (by decide)).1 (by decide)⟩

/-- The state after any call of `MsanReallocate` that returns a non-null
pointer: the new block is set up first, then the old block, if its recorded
size is not zero, is copied from and released. -/
theorem MsanReallocate_ret_state (env : Env) (oldp n al p : Nat) (z : Bool) (s : State)
    (h : (MsanReallocate env oldp n al z s).value = some p) (hp : p ≠ 0) :
    ∃ s1 m, __msan_init env s = .ret () s1 ∧ s1.msan_inited ≠ 0 ∧ s1.mem = s.mem ∧
      s1.shadow = s.shadow ∧ s1.heap = s.heap ∧
      s1.msan_poison_in_malloc = s.msan_poison_in_malloc ∧
      env.posix_memalign al ((n + extra_bytes al) % 2 ^ 64) = some m ∧
      p = m + extra_bytes al ∧
      (oldp ≠ 0 → load64 s.mem (oldp - 16) &&& 0xffff = kMsanMallocMagic) ∧
      (MsanReallocate env oldp n al z s).state =
        if old_size_of s.mem oldp ≠ 0 then
          MsanReallocate_old_block env oldp n (old_size_of s.mem oldp)
            (real_oldp_of s.mem oldp) p
            (MsanReallocate_new_block env n (extra_bytes al) z m
              (logged al n (extra_bytes al) (some m) s1)).2
        else
          (MsanReallocate_new_block env n (extra_bytes al) z m
            (logged al n (extra_bytes al) (some m) s1)).2 := by
  obtain ⟨s1, h1, hin, hm, hsh, hh, hf⟩ := MsanReallocate_value_init _ _ _ _ _ _ _ h
  by_cases hold : oldp = 0
  · subst hold
    rw [MsanReallocate_fresh _ _ _ _ _ _ h1 hin] at h ⊢
    obtain ⟨m, hres, hpm⟩ := body_value_ne_zero _ _ _ _ _ _ _ _ _ _ h hp
    refine ⟨s1, m, h1, hin, hm, hsh, hh, hf, hres, hpm, fun hne => absurd rfl hne, ?_⟩
    rw [body_some _ _ _ _ _ _ _ _ _ _ hres]
    simp [Outcome.state, old_size_of]
  · by_cases hmagic : load64 s1.mem (oldp - 16) &&& 0xffff = kMsanMallocMagic
    · rw [MsanReallocate_old _ _ _ _ _ _ _ h1 hin hold hmagic] at h ⊢
      obtain ⟨m, hres, hpm⟩ := body_value_ne_zero _ _ _ _ _ _ _ _ _ _ h hp
      refine ⟨s1, m, h1, hin, hm, hsh, hh, hf, hres, hpm, fun _ => hm ▸ hmagic, ?_⟩
      rw [body_some _ _ _ _ _ _ _ _ _ _ hres, ← hpm, ← hm]
      simp only [old_size_of, real_oldp_of, hold, ne_eq, not_false_eq_true, if_true]
      split <;> rfl
    · rw [MsanReallocate_bad_magic _ _ _ _ _ _ _ h1 hin hold hmagic] at h
      simp [Outcome.value] at h

/-- C4: when `MsanReallocate` is given a live block `oldp` of recorded size
`oldSize > 0` and succeeds with a new block `p` that does not overlap the old
one (neither in memory, header included, nor in the shadow), then for every
`i < min(oldSize, size)` the shadow byte and the data byte of `p + i` after
the call are those of `oldp + i` before the call. -/
theorem C4_realloc_preserves_prefix (env : Env) (oldp n al p : Nat) (z : Bool) (s : State)
    (hold : oldp ≠ 0)
    (hsize : 0 < load64 s.mem (oldp - 16) >>> 16)
    (h : (MsanReallocate env oldp n al z s).value = some p) (hp : p ≠ 0)
    (hdisj : p + n ≤ oldp ∨ oldp + load64 s.mem (oldp - 16) >>> 16 ≤ p - 16)
    (hsdisj : env.MEM_TO_SHADOW p + n ≤ env.MEM_TO_SHADOW oldp ∨
      env.MEM_TO_SHADOW oldp + load64 s.mem (oldp - 16) >>> 16 ≤ env.MEM_TO_SHADOW p) :
    ∀ i, i < min (load64 s.mem (oldp - 16) >>> 16) n →
      (MsanReallocate env oldp n al z s).state.shadow (env.MEM_TO_SHADOW p + i)
        = s.shadow (env.MEM_TO_SHADOW oldp + i) ∧
      (MsanReallocate env oldp n al z s).state.mem (p + i) = s.mem (oldp + i) := by
  obtain ⟨s1, m, -, -, hm, hsh, -, -, -, hpm, -, hst⟩ :=
    MsanReallocate_ret_state _ _ _ _ _ _ _ h hp
  have hos : old_size_of s.mem oldp = load64 s.mem (oldp - 16) >>> 16 := by
    simp [old_size_of, hold]
  have hnm := new_block_mem env n (extra_bytes al) z m
    (logged al n (extra_bytes al) (some m) s1)
  have hns := new_block_shadow env n (extra_bytes al) z m
    (logged al n (extra_bytes al) (some m) s1)
  have hlm : (logged al n (extra_bytes al) (some m) s1).mem = s.mem := hm
  have hls : (logged al n (extra_bytes al) (some m) s1).shadow = s.shadow := hsh
  rw [← hpm, hlm] at hnm
  rw [← hpm, hls] at hns
  have hp16 : 16 ≤ p := by
    have := extra_bytes_ge al
    omega
  intro i hi
  rw [hst, hos]
  generalize load64 s.mem (oldp - 16) >>> 16 = os at hsize hdisj hsdisj hi ⊢
  have hos0 : os ≠ 0 := by omega
  have hmin : i < (if n < os then n else os) := by
    split <;> omega
  have hin : i < n := by omega
  have hio : i < os := by omega
  simp only [hos0, ne_eq, not_false_eq_true, if_true]
  constructor
  · rw [old_block_shadow]
    simp only [hp, ne_eq, not_false_eq_true, if_true]
    rw [memset_outside _ _ _ _ _ (by omega), memcpy_inside _ _ _ _ _ _ hmin, hns]
    cases z with
    | true => simp
    | false =>
      simp only [Bool.false_eq_true, if_false]
      by_cases hf : (logged al n (extra_bytes al) (some m) s1).msan_poison_in_malloc = 0
      · simp only [hf, ne_eq, not_true_eq_false, if_false]
      · simp only [hf, ne_eq, not_false_eq_true, if_true]
        exact memset_outside _ _ _ _ _ (by omega)
  · rw [old_block_mem]
    simp only [hp, ne_eq, not_false_eq_true, if_true]
    rw [memcpy_inside _ _ _ _ _ _ hmin, hnm]
    have hstore : store64 (store64 s.mem (p - 16) (header_word n)) (p - 8) m (oldp + i)
        = s.mem (oldp + i) := by
      rw [store64_outside _ _ _ _ (by omega), store64_outside _ _ _ _ (by omega)]
    cases z with
    | true =>
      simp only [if_true]
      rw [memset_outside _ _ _ _ _ (by omega), hstore]
    | false =>
      simp only [Bool.false_eq_true, if_false]
      exact hstore

/-- A case of C4 on the sample environment: a four-byte block whose first two
bytes were unpoisoned grows to eight bytes. -/
theorem C4_realloc_preserves_prefix_witness :
    ((0x7f0000014010 : Nat) ≠ 0 ∧
      0 < load64 liveBlockState.mem (0x7f0000014010 - 16) >>> 16 ∧
      (MsanReallocate sampleEnv 0x7f0000014010 8 8 false liveBlockState).value
        = some 0x7f0000018010) ∧
    ∀ i, i < min (load64 liveBlockState.mem (0x7f0000014010 - 16) >>> 16) 8 →
      (MsanReallocate sampleEnv 0x7f0000014010 8 8 false liveBlockState).state.shadow
          (sampleEnv.MEM_TO_SHADOW 0x7f0000018010 + i)
        = liveBlockState.shadow (sampleEnv.MEM_TO_SHADOW 0x7f0000014010 + i) ∧
      (MsanReallocate sampleEnv 0x7f0000014010 8 8 false liveBlockState).state.mem
          (0x7f0000018010 + i) = liveBlockState.mem (0x7f0000014010 + i) :=
  ⟨⟨by decide, by decide, by decide⟩,
   C4_realloc_preserves_prefix sampleEnv 0x7f0000014010 8 8 0x7f0000018010 false liveBlockState
     (by decide) (by decide) (by decide) (by decide) (by decide) (by decide)⟩

/-- The run of `__msan_init` does not depend on the contents of the shadow. -/
theorem init_shadow_indep (env : Env) (s : State) (sh : Nat → Nat) :
    __msan_init env { s with shadow := sh } =
      match __msan_init env s with
      | .ret v s1 => .ret v { s1 with shadow := sh }
      | .fatal c s1 => .fatal c { s1 with shadow := sh } := by
  unfold __msan_init
  by_cases h0 : s.msan_inited = 0
  · by_cases hp : IsRunningUnderPin env = true
    · simp [h0, hp, __msan_clear_on_return]
    · by_cases hs : env.InitShadow = true
      · simp [h0, hp, hs, __msan_clear_on_return]
      · simp [h0, hp, hs, __msan_clear_on_return]
  · simp [h0]

/-- Two shadows that agree outside a range are equal once the range is filled. -/
theorem memset_congr_outside (m1 m2 : Nat → Nat) (a : Nat) (c : Int) (n : Nat)
    (h : ∀ x, ¬ (a ≤ x ∧ x < a + n) → m1 x = m2 x) :
    memset m1 a c n = memset m2 a c n := by
  funext x
  by_cases hx : a ≤ x ∧ x < a + n
  · simp only [memset, if_pos hx]
  · simp only [memset, if_neg hx]
    exact h x hx

/-- C5: when `ptr` has a valid header that records size `sz`, after
`MsanDeallocate(ptr)` all `sz` shadow bytes of `[ptr, ptr + sz)` are `0x00`,
whatever they were; hence a run that differs only in the prior shadow of the
freed block ends `MsanDeallocate` in the same state, and every fresh allocation
made next has the same outcome in both runs. -/
theorem C5_deallocate_unpoisons (env : Env) (ptr : Nat) (s : State)
    (hmagic : load64 s.mem (ptr - 16) &&& 0xffff = kMsanMallocMagic)
    (hinit : (__msan_init env s).cause = none) :
    (MsanDeallocate env ptr s).cause = none ∧
    (∀ i, i < load64 s.mem (ptr - 16) >>> 16 →
      (MsanDeallocate env ptr s).state.shadow (env.MEM_TO_SHADOW ptr + i) = 0x00) ∧
    (∀ sh2 : Nat → Nat,
      (∀ x, ¬ (env.MEM_TO_SHADOW ptr ≤ x ∧
          x < env.MEM_TO_SHADOW ptr + load64 s.mem (ptr - 16) >>> 16) →
        sh2 x = s.shadow x) →
      (MsanDeallocate env ptr { s with shadow := sh2 }).state
        = (MsanDeallocate env ptr s).state ∧
      ∀ n al z,
        MsanReallocate env 0 n al z (MsanDeallocate env ptr { s with shadow := sh2 }).state
          = MsanReallocate env 0 n al z (MsanDeallocate env ptr s).state) := by
  rcases init_cases env s with ⟨s1, h1, -, hm, hsh, -, -⟩ | ⟨s1, h1, _⟩
  · have hmagic1 : load64 s1.mem (ptr - 16) &&& 0xffff = kMsanMallocMagic := by
      rw [hm]; exact hmagic
    have hd := MsanDeallocate_ok env ptr s s1 h1 hmagic1
    have hstate : ∀ sh2 : Nat → Nat,
        (∀ x, ¬ (env.MEM_TO_SHADOW ptr ≤ x ∧
            x < env.MEM_TO_SHADOW ptr + load64 s.mem (ptr - 16) >>> 16) →
          sh2 x = s.shadow x) →
        (MsanDeallocate env ptr { s with shadow := sh2 }).state
          = (MsanDeallocate env ptr s).state := by
      intro sh2 hagree
      have h2 : __msan_init env { s with shadow := sh2 } = .ret () { s1 with shadow := sh2 } := by
        rw [init_shadow_indep, h1]
      have hd2 := MsanDeallocate_ok env ptr { s with shadow := sh2 } { s1 with shadow := sh2 }
        h2 hmagic1
      rw [hd, hd2]
      simp only [Outcome.state, __msan_unpoison, hm, hsh]
      rw [memset_congr_outside sh2 s.shadow _ _ _ hagree]
    refine ⟨?_, ?_, ?_⟩
    · rw [hd]; rfl
    · intro i hi
      rw [hd]
      simp only [Outcome.state, __msan_unpoison, hm]
      rw [memset_inside _ _ _ _ _ hi]
      decide
    · intro sh2 hagree
      refine ⟨hstate sh2 hagree, ?_⟩
      intro n al z
      rw [hstate sh2 hagree]
  · rw [h1] at hinit
    simp [Outcome.cause] at hinit

/-- A case of C5 on the sample environment: the four-byte live block is freed. -/
theorem C5_deallocate_unpoisons_witness :
    (load64 liveBlockState.mem (0x7f0000014010 - 16) &&& 0xffff = kMsanMallocMagic ∧
      (__msan_init sampleEnv liveBlockState).cause = none) ∧
    ∀ i, i < load64 liveBlockState.mem (0x7f0000014010 - 16) >>> 16 →
      (MsanDeallocate sampleEnv 0x7f0000014010 liveBlockState).state.shadow
        (sampleEnv.MEM_TO_SHADOW 0x7f0000014010 + i) = 0x00 :=
  ⟨⟨by decide, by decide⟩,
   (C5_deallocate_unpoisons sampleEnv 0x7f0000014010 liveBlockState
     (by decide) (by decide)).2.1⟩

/-- C6: for a non-null pointer `p` whose header word `p[-2]` does not carry the
magic in its low sixteen bits, `MsanDeallocate(p)` and `MsanReallocate(p, ...)`
never return; the process ends in the failed `CHECK` as soon as `__msan_init`
has returned, and it ends with memory, shadow and the allocator log exactly as
they were before the call: no shadow byte is written, `posix_memalign` is not
asked, the real `free` is not called. -/
theorem C6_bad_magic_is_fatal (env : Env) (p : Nat) (s : State) (hp : p ≠ 0)
    (hbad : load64 s.mem (p - 16) &&& 0xffff ≠ kMsanMallocMagic) :
    ((MsanDeallocate env p s).value = none ∧
      ((__msan_init env s).cause = none →
        (MsanDeallocate env p s).cause = some Fatal.CheckFailed) ∧
      (MsanDeallocate env p s).state.shadow = s.shadow ∧
      (MsanDeallocate env p s).state.mem = s.mem ∧
      (MsanDeallocate env p s).state.heap = s.heap) ∧
    (∀ size alignment zeroise,
      (MsanReallocate env p size alignment zeroise s).value = none ∧
      ((__msan_init env s).cause = none →
        (MsanReallocate env p size alignment zeroise s).cause = some Fatal.CheckFailed) ∧
      (MsanReallocate env p size alignment zeroise s).state.shadow = s.shadow ∧
      (MsanReallocate env p size alignment zeroise s).state.mem = s.mem ∧
      (MsanReallocate env p size alignment zeroise s).state.heap = s.heap) := by
  rcases init_cases env s with ⟨s1, h1, hin, hm, hsh, hh, -⟩ | ⟨s1, h1, hm, hsh, hh, -⟩
  · have hbad1 : load64 s1.mem (p - 16) &&& 0xffff ≠ kMsanMallocMagic := by
      rw [hm]; exact hbad
    constructor
    · rw [MsanDeallocate_bad_magic env p s s1 h1 hbad1]
      exact ⟨rfl, fun _ => rfl, hsh, hm, hh⟩
    · intro size alignment zeroise
      rw [MsanReallocate_bad_magic env p size alignment zeroise s s1 h1 hin hp hbad1]
      exact ⟨rfl, fun _ => rfl, hsh, hm, hh⟩
  · have hc : (__msan_init env s).cause ≠ none := by
      rw [h1]; simp [Outcome.cause]
    constructor
    · rw [MsanDeallocate_init_fatal env p s s1 _ h1]
      exact ⟨rfl, fun h => absurd h hc, hsh, hm, hh⟩
    · intro size alignment zeroise
      rw [MsanReallocate_init_fatal env p size alignment zeroise s s1 _ h1]
      exact ⟨rfl, fun h => absurd h hc, hsh, hm, hh⟩

/-- A case of C6 on the sample environment: the pointer `0x7f0000014010` into
memory filled with `0xAA` has no valid header. -/
theorem C6_bad_magic_is_fatal_witness :
    ((0x7f0000014010 : Nat) ≠ 0 ∧
      load64 sampleState.mem (0x7f0000014010 - 16) &&& 0xffff ≠ kMsanMallocMagic ∧
      (__msan_init sampleEnv sampleState).cause = none) ∧
    (MsanDeallocate sampleEnv 0x7f0000014010 sampleState).cause = some Fatal.CheckFailed ∧
    (MsanReallocate sampleEnv 0x7f0000014010 8 8 false sampleState).cause
      = some Fatal.CheckFailed :=
  ⟨⟨by decide, by decide, by decide⟩,
   (C6_bad_magic_is_fatal sampleEnv 0x7f0000014010 sampleState (by decide) (by decide)).1.2.1
     (by decide),
   ((C6_bad_magic_is_fatal sampleEnv 0x7f0000014010 sampleState (by decide) (by decide)).2
     8 8 false).2.1 (by decide)⟩

/-! ## The header of an allocated block -/

/-- After a call of `MsanReallocate` that returns a non-null pointer `p`, the
word `p[-2]` is the header word of the requested size and `p[-1]` is the raw
pointer `m` that `posix_memalign` returned, with `p = m + extra_bytes`. -/
theorem MsanReallocate_header (env : Env) (oldp n al p : Nat) (z : Bool) (s : State)
    (h : (MsanReallocate env oldp n al z s).value = some p) (hp : p ≠ 0) :
    ∃ m, env.posix_memalign al ((n + extra_bytes al) % 2 ^ 64) = some m ∧
      p = m + extra_bytes al ∧
      load64 (MsanReallocate env oldp n al z s).state.mem (p - 16) = header_word n ∧
      load64 (MsanReallocate env oldp n al z s).state.mem (p - 8) = m % 2 ^ 64 := by
  obtain ⟨s1, m, -, -, -, -, -, -, hres, hpm, -, hst⟩ :=
    MsanReallocate_ret_state _ _ _ _ _ _ _ h hp
  refine ⟨m, hres, hpm, ?_⟩
  have hnm := new_block_mem env n (extra_bytes al) z m
    (logged al n (extra_bytes al) (some m) s1)
  rw [← hpm] at hnm
  have hp16 : 16 ≤ p := by
    have := extra_bytes_ge al
    omega
  -- the bytes below `p` are those of the two stores
  have hbelow : ∀ x, x < p → (MsanReallocate env oldp n al z s).state.mem x =
      store64 (store64 (logged al n (extra_bytes al) (some m) s1).mem (p - 16)
        (header_word n)) (p - 8) m x := by
    intro x hx
    have hnew : (MsanReallocate_new_block env n (extra_bytes al) z m
        (logged al n (extra_bytes al) (some m) s1)).2.mem x =
        store64 (store64 (logged al n (extra_bytes al) (some m) s1).mem (p - 16)
          (header_word n)) (p - 8) m x := by
      rw [hnm]
      cases z with
      | true =>
        simp only [if_true]
        exact memset_outside _ _ _ _ _ (by omega)
      | false => simp only [Bool.false_eq_true, if_false]
    rw [hst]
    split
    · rw [old_block_mem]
      simp only [hp, ne_eq, not_false_eq_true, if_true]
      rw [memcpy_outside _ _ _ _ _ _ (by omega)]
      exact hnew
    · exact hnew
  constructor
  · rw [load64_congr _ _ _ (fun x _ hx => hbelow x (by omega)),
      load64_congr _ (store64 (logged al n (extra_bytes al) (some m) s1).mem (p - 16)
        (header_word n)) _ (fun x _ hx => store64_outside _ _ _ _ (by omega)),
      load64_store64]
    exact Nat.mod_eq_of_lt (header_word_lt n)
  · rw [load64_congr _ _ _ (fun x _ hx => hbelow x (by omega)), load64_store64]

/-! ## Release of the old block -/

/-- The process ends in a call with a valid header only where `__msan_init`
ends it. -/
theorem MsanDeallocate_cause (env : Env) (ptr : Nat) (s : State)
    (hmagic : load64 s.mem (ptr - 16) &&& 0xffff = kMsanMallocMagic) :
    (MsanDeallocate env ptr s).cause = (__msan_init env s).cause := by
  rcases init_cases env s with ⟨s1, h1, -, hm, -, -, -⟩ | ⟨s1, h1, -⟩
  · rw [MsanDeallocate_ok env ptr s s1 h1 (by rw [hm]; exact hmagic), h1]
    rfl
  · rw [MsanDeallocate_init_fatal env ptr s s1 _ h1, h1]

theorem MsanReallocate_body_cause (env : Env) (oldp n al : Nat) (z : Bool) (e os ro : Nat)
    (s : State) : (MsanReallocate_body env oldp n al z e os ro s).cause = none := by
  cases hres : env.posix_memalign al ((n + e) % 2 ^ 64) with
  | none =>
    rw [body_none _ _ _ _ _ _ _ _ _ hres]
    split <;> rfl
  | some m =>
    rw [body_some _ _ _ _ _ _ _ _ _ _ hres]
    split <;> rfl

theorem MsanReallocate_cause (env : Env) (oldp n al : Nat) (z : Bool) (s : State)
    (hmagic : oldp ≠ 0 → load64 s.mem (oldp - 16) &&& 0xffff = kMsanMallocMagic) :
    (MsanReallocate env oldp n al z s).cause = (__msan_init env s).cause := by
  rcases init_cases env s with ⟨s1, h1, hin, hm, -, -, -⟩ | ⟨s1, h1, -⟩
  · by_cases hold : oldp = 0
    · subst hold
      rw [MsanReallocate_fresh _ _ _ _ _ _ h1 hin, h1, MsanReallocate_body_cause]
      rfl
    · rw [MsanReallocate_old _ _ _ _ _ _ _ h1 hin hold (by rw [hm]; exact hmagic hold), h1,
        MsanReallocate_body_cause]
      rfl
  · rw [MsanReallocate_init_fatal _ _ _ _ _ _ _ _ h1, h1]
    rfl

theorem init_cause_ne_check (env : Env) (s : State) :
    (__msan_init env s).cause ≠ some Fatal.CheckFailed := by
  rcases init_cases env s with ⟨s1, h1, -⟩ | ⟨s1, h1, -⟩ <;> rw [h1] <;> simp [Outcome.cause]

/-- The calls that `MsanReallocate` makes to the real allocator: one
`posix_memalign`, then one `free` of the old raw pointer when the old size read
from the header is not zero, and no `free` otherwise. -/
theorem MsanReallocate_heap (env : Env) (oldp n al : Nat) (z : Bool) (s : State)
    (hinit : (__msan_init env s).cause = none)
    (hmagic : oldp ≠ 0 → load64 s.mem (oldp - 16) &&& 0xffff = kMsanMallocMagic) :
    (MsanReallocate env oldp n al z s).state.heap =
      s.heap ++ HeapCall.posix_memalign al ((n + extra_bytes al) % 2 ^ 64)
          (env.posix_memalign al ((n + extra_bytes al) % 2 ^ 64)) ::
        (if old_size_of s.mem oldp ≠ 0 then [HeapCall.free (real_oldp_of s.mem oldp)]
         else []) := by
  rcases init_cases env s with ⟨s1, h1, hin, hm, -, hh, -⟩ | ⟨s1, h1, -⟩
  · have hbody : ∀ os ro, (MsanReallocate_body env oldp n al z (extra_bytes al) os ro s1).state.heap
        = s.heap ++ HeapCall.posix_memalign al ((n + extra_bytes al) % 2 ^ 64)
            (env.posix_memalign al ((n + extra_bytes al) % 2 ^ 64)) ::
          (if os ≠ 0 then [HeapCall.free ro] else []) := by
      intro os ro
      cases hres : env.posix_memalign al ((n + extra_bytes al) % 2 ^ 64) with
      | none =>
        rw [body_none _ _ _ _ _ _ _ _ _ hres]
        by_cases hos : os = 0
        · simp [hos, Outcome.state, logged, hh]
        · simp [hos, Outcome.state, logged, hh, old_block_heap]
      | some m =>
        rw [body_some _ _ _ _ _ _ _ _ _ _ hres]
        by_cases hos : os = 0
        · simp [hos, Outcome.state, logged, hh, new_block_heap]
        · simp [hos, Outcome.state, logged, hh, old_block_heap, new_block_heap]
    by_cases hold : oldp = 0
    · subst hold
      rw [MsanReallocate_fresh _ _ _ _ _ _ h1 hin, hbody]
      simp [old_size_of]
    · rw [MsanReallocate_old _ _ _ _ _ _ _ h1 hin hold (by rw [hm]; exact hmagic hold), hbody]
      simp [old_size_of, real_oldp_of, hold, hm]
  · rw [h1] at hinit
    simp [Outcome.cause] at hinit

/-- C7 at its failing input: the block returned by `malloc(0)` has a valid
header that records size `0` and raw pointer `0x7f0000010000`; reallocating it
to eight bytes succeeds, and the only call to the real allocator is the
`posix_memalign` of the new block: the old raw pointer is never passed to
`free`, whereas `MsanDeallocate` of the same block does free it. -/
theorem C7_zero_size_block_not_freed :
    (MsanReallocate sampleEnv 0 0 8 false sampleState).value = some 0x7f0000010010 ∧
    load64 zeroBlockState.mem (0x7f0000010010 - 16) &&& 0xffff = kMsanMallocMagic ∧
    load64 zeroBlockState.mem (0x7f0000010010 - 16) >>> 16 = 0 ∧
    load64 zeroBlockState.mem (0x7f0000010010 - 8) = 0x7f0000010000 ∧
    (MsanReallocate sampleEnv 0x7f0000010010 8 8 false zeroBlockState).value
      = some 0x7f0000018010 ∧
    (MsanReallocate sampleEnv 0x7f0000010010 8 8 false zeroBlockState).state.heap
      = zeroBlockState.heap ++ [HeapCall.posix_memalign 8 24 (some 0x7f0000018000)] ∧
    (MsanDeallocate sampleEnv 0x7f0000010010 zeroBlockState).state.heap
      = zeroBlockState.heap ++ [HeapCall.free 0x7f0000010000] := by
  decide

/-- C8 at its failing input: a zero-byte allocation at alignment 32 succeeds
with raw pointer `0x7f0000020000` and user pointer `0x7f0000020020`; with the
header untouched, `MsanDeallocate` passes the raw pointer to `free`, but a later
`MsanReallocate` of the block makes no call to `free` at all. -/
theorem C8_zero_size_realloc_skips_free :
    (MsanReallocate sampleEnv 0 0 32 false sampleState).value = some 0x7f0000020020 ∧
    sampleEnv.posix_memalign 32 ((0 + extra_bytes 32) % 2 ^ 64) = some 0x7f0000020000 ∧
    (MsanDeallocate sampleEnv 0x7f0000020020 zeroBlockState32).state.heap
      = zeroBlockState32.heap ++ [HeapCall.free 0x7f0000020000] ∧
    (MsanReallocate sampleEnv 0x7f0000020020 8 8 false zeroBlockState32).value
      = some 0x7f0000018010 ∧
    (MsanReallocate sampleEnv 0x7f0000020020 8 8 false zeroBlockState32).state.heap
      = zeroBlockState32.heap ++ [HeapCall.posix_memalign 8 24 (some 0x7f0000018000)] := by
  decide

/-- The one call that `MsanDeallocate` makes to the real allocator: `free` of
the raw pointer stored in `ptr[-1]`. -/
theorem MsanDeallocate_heap (env : Env) (ptr : Nat) (s : State)
    (hinit : (__msan_init env s).cause = none)
    (hmagic : load64 s.mem (ptr - 16) &&& 0xffff = kMsanMallocMagic) :
    (MsanDeallocate env ptr s).state.heap =
      s.heap ++ [HeapCall.free (load64 s.mem (ptr - 8))] := by
  rcases init_cases env s with ⟨s1, h1, -, hm, -, hh, -⟩ | ⟨s1, h1, -⟩
  · rw [MsanDeallocate_ok env ptr s s1 h1 (by rw [hm]; exact hmagic)]
    simp [Outcome.state, hh, hm]
  · rw [h1] at hinit
    simp [Outcome.cause] at hinit

/-- The raw pointer is recovered for every alignment: after an allocation that
succeeds with raw pointer `m` and user pointer `p`, and with the two header
words untouched, `MsanDeallocate(p)` makes exactly one call to the real
allocator, `free(m)`; a later `MsanReallocate(p, ...)` frees `m` as well, after
its `posix_memalign`, unless the recorded size `n mod 2 ^ 48` is zero. -/
theorem raw_pointer_recovered (env : Env) (oldp n al p : Nat) (z : Bool) (s : State)
    (h : (MsanReallocate env oldp n al z s).value = some p) (hp : p ≠ 0) :
    ∃ m, env.posix_memalign al ((n + extra_bytes al) % 2 ^ 64) = some m ∧
      p = m + extra_bytes al ∧
      ∀ (env2 : Env) (s2 : State),
        load64 s2.mem (p - 16) = load64 (MsanReallocate env oldp n al z s).state.mem (p - 16) →
        load64 s2.mem (p - 8) = load64 (MsanReallocate env oldp n al z s).state.mem (p - 8) →
        (__msan_init env2 s2).cause = none →
        (MsanDeallocate env2 p s2).state.heap = s2.heap ++ [HeapCall.free (m % 2 ^ 64)] ∧
        ∀ n2 al2 z2, (MsanReallocate env2 p n2 al2 z2 s2).state.heap =
          s2.heap ++ HeapCall.posix_memalign al2 ((n2 + extra_bytes al2) % 2 ^ 64)
              (env2.posix_memalign al2 ((n2 + extra_bytes al2) % 2 ^ 64)) ::
            (if n % 2 ^ 48 ≠ 0 then [HeapCall.free (m % 2 ^ 64)] else []) := by
  obtain ⟨m, hres, hpm, hw, hraw⟩ := MsanReallocate_header _ _ _ _ _ _ _ h hp
  refine ⟨m, hres, hpm, ?_⟩
  intro env2 s2 h16 h8 hinit
  rw [hw] at h16
  rw [hraw] at h8
  have hmagic : load64 s2.mem (p - 16) &&& 0xffff = kMsanMallocMagic := by
    rw [h16]; exact header_word_magic n
  constructor
  · rw [MsanDeallocate_heap env2 p s2 hinit hmagic, h8]
  · intro n2 al2 z2
    rw [MsanReallocate_heap env2 p n2 al2 z2 s2 hinit (fun _ => hmagic)]
    simp only [old_size_of, real_oldp_of, hp, ne_eq, not_false_eq_true, if_true, h16, h8,
      header_word_size]

/-- C9: the header word `(s << 16) | 0xCA4D` has the magic in its low sixteen
bits for every size `s`; it is the word found at `p[-2]` after a successful
allocation, so with that word untouched neither `MsanDeallocate(p)` nor
`MsanReallocate(p, ...)` ends in a failed `CHECK`, and called right after the
allocation both return. -/
theorem C9_allocated_header_passes_check (env : Env) (oldp n al p : Nat) (z : Bool)
    (s : State) (h : (MsanReallocate env oldp n al z s).value = some p) (hp : p ≠ 0) :
    header_word n &&& 0xffff = kMsanMallocMagic ∧
    load64 (MsanReallocate env oldp n al z s).state.mem (p - 16) &&& 0xffff
      = kMsanMallocMagic ∧
    (∀ (env2 : Env) (s2 : State),
      load64 s2.mem (p - 16) = load64 (MsanReallocate env oldp n al z s).state.mem (p - 16) →
      (MsanDeallocate env2 p s2).cause ≠ some Fatal.CheckFailed ∧
      ∀ n2 al2 z2, (MsanReallocate env2 p n2 al2 z2 s2).cause ≠ some Fatal.CheckFailed) ∧
    (MsanDeallocate env p (MsanReallocate env oldp n al z s).state).cause = none ∧
    (∀ n2 al2 z2,
      (MsanReallocate env p n2 al2 z2 (MsanReallocate env oldp n al z s).state).cause
        = none) := by
  obtain ⟨m, -, -, hw, -⟩ := MsanReallocate_header _ _ _ _ _ _ _ h hp
  have hmagic : load64 (MsanReallocate env oldp n al z s).state.mem (p - 16) &&& 0xffff
      = kMsanMallocMagic := by
    rw [hw]; exact header_word_magic n
  have hinited : (MsanReallocate env oldp n al z s).state.msan_inited ≠ 0 := by
    obtain ⟨s1, m, -, hin, -, -, -, -, -, -, -, hst⟩ :=
      MsanReallocate_ret_state _ _ _ _ _ _ _ h hp
    rw [hst]
    have hnew : (MsanReallocate_new_block env n (extra_bytes al) z m
        (logged al n (extra_bytes al) (some m) s1)).2.msan_inited = s1.msan_inited := by
      unfold MsanReallocate_new_block
      cases z with
      | true => rfl
      | false =>
        by_cases hf : s1.msan_poison_in_malloc = 0
        · simp [hf, logged]
        · simp [hf, logged, __msan_poison]
    have hold : ∀ os ro t, (MsanReallocate_old_block env oldp n os ro p t).msan_inited
        = t.msan_inited := by
      intro os ro t
      unfold MsanReallocate_old_block
      simp [hp, __msan_unpoison, __msan_copy_poison]
    split
    · rw [hold, hnew]; exact hin
    · rw [hnew]; exact hin
  have hinit : (__msan_init env (MsanReallocate env oldp n al z s).state).cause = none := by
    rw [init_inited _ _ hinited]
    rfl
  refine ⟨header_word_magic n, hmagic, ?_, ?_, ?_⟩
  · intro env2 s2 h16
    have hmagic2 : load64 s2.mem (p - 16) &&& 0xffff = kMsanMallocMagic := by
      rw [h16]; exact hmagic
    constructor
    · rw [MsanDeallocate_cause env2 p s2 hmagic2]
      exact init_cause_ne_check env2 s2
    · intro n2 al2 z2
      rw [MsanReallocate_cause env2 p n2 al2 z2 s2 (fun _ => hmagic2)]
      exact init_cause_ne_check env2 s2
  · rw [MsanDeallocate_cause env p _ hmagic]
    exact hinit
  · intro n2 al2 z2
    rw [MsanReallocate_cause env p n2 al2 z2 _ (fun _ => hmagic)]
    exact hinit

/-- A case of C9 on the sample environment: a block of 100 bytes at
alignment 64. -/
theorem C9_allocated_header_passes_check_witness :
    ((MsanReallocate sampleEnv 0 100 64 false sampleState).value = some 0x7f00000a4040 ∧
      (0x7f00000a4040 : Nat) ≠ 0) ∧
    load64 (MsanReallocate sampleEnv 0 100 64 false sampleState).state.mem (0x7f00000a4040 - 16)
      &&& 0xffff = kMsanMallocMagic ∧
    (MsanDeallocate sampleEnv 0x7f00000a4040
      (MsanReallocate sampleEnv 0 100 64 false sampleState).state).cause = none :=
  ⟨⟨by decide, by decide⟩,
   (C9_allocated_header_passes_check sampleEnv 0 100 64 0x7f00000a4040 false sampleState
     (by decide) (by decide)).2.1,
   (C9_allocated_header_passes_check sampleEnv 0 100 64 0x7f00000a4040 false sampleState
     (by decide) (by decide)).2.2.2.1⟩

/-- C10 (as the code has it): the size that `MsanDeallocate` and
`MsanReallocate` read back from the header of a successfully allocated block,
`p[-2] >> 16`, is the requested size modulo `2 ^ 48`; it is the requested size
itself for every size below `2 ^ 48`. -/
theorem C10_recovered_size (env : Env) (oldp n al p : Nat) (z : Bool) (s : State)
    (h : (MsanReallocate env oldp n al z s).value = some p) (hp : p ≠ 0) :
    load64 (MsanReallocate env oldp n al z s).state.mem (p - 16) >>> 16 = n % 2 ^ 48 ∧
    (n < 2 ^ 48 →
      load64 (MsanReallocate env oldp n al z s).state.mem (p - 16) >>> 16 = n) := by
  obtain ⟨m, -, -, hw, -⟩ := MsanReallocate_header _ _ _ _ _ _ _ h hp
  rw [hw, header_word_size]
  exact ⟨rfl, fun hlt => Nat.mod_eq_of_lt hlt⟩

/-- A case of C10 on the sample environment: 100 bytes are read back as 100. -/
theorem C10_recovered_size_witness :
    ((MsanReallocate sampleEnv 0 100 64 false sampleState).value = some 0x7f00000a4040 ∧
      (0x7f00000a4040 : Nat) ≠ 0 ∧ 100 < 2 ^ 48) ∧
    load64 (MsanReallocate sampleEnv 0 100 64 false sampleState).state.mem
      (0x7f00000a4040 - 16) >>> 16 = 100 :=
  ⟨⟨by decide, by decide, by decide⟩,
   (C10_recovered_size sampleEnv 0 100 64 0x7f00000a4040 false sampleState
     (by decide) (by decide)).2 (by decide)⟩

/-- C10 fails as stated: with malloc-time poisoning off, the allocation of
`2 ^ 64 - 8` bytes at alignment 8, whose request wraps to eight bytes, returns
`0x7f0000008010`, and the size read back from the header of that block is
`2 ^ 48 - 8`, not `2 ^ 64 - 8`. -/
theorem C10_counterexample :
    (2 ^ 64 - 8 : Nat) < 2 ^ 64 ∧
    noPoisonState.msan_poison_in_malloc = 0 ∧
    (MsanReallocate sampleEnv 0 (2 ^ 64 - 8) 8 false noPoisonState).value
      = some 0x7f0000008010 ∧
    (MsanReallocate sampleEnv 0 (2 ^ 64 - 8) 8 false noPoisonState).state.heap
      = [HeapCall.posix_memalign 8 8 (some 0x7f0000008000)] ∧
    load64 (MsanReallocate sampleEnv 0 (2 ^ 64 - 8) 8 false noPoisonState).state.mem
      (0x7f0000008010 - 16) >>> 16 = 2 ^ 48 - 8 ∧
    (2 ^ 48 - 8 : Nat) ≠ 2 ^ 64 - 8 := by
  decide

/-! ## Allocation failure -/

/-- C11: when `posix_memalign` reports failure, `MsanReallocate` called with
`oldp = NULL` returns `NULL`; the process is not ended, and neither memory (so
no header word) nor any shadow byte is written. -/
theorem C11_failed_allocation_returns_null (env : Env) (n al : Nat) (z : Bool) (s : State)
    (hinit : (__msan_init env s).cause = none)
    (hfail : env.posix_memalign al ((n + extra_bytes al) % 2 ^ 64) = none) :
    MsanReallocate env 0 n al z s =
      .ret 0 (logged al n (extra_bytes al) none (__msan_init env s).state) ∧
    (MsanReallocate env 0 n al z s).value = some 0 ∧
    (MsanReallocate env 0 n al z s).cause = none ∧
    (MsanReallocate env 0 n al z s).state.mem = s.mem ∧
    (MsanReallocate env 0 n al z s).state.shadow = s.shadow := by
  rcases init_cases env s with ⟨s1, h1, hin, hm, hsh, -, -⟩ | ⟨s1, h1, -⟩
  · have hcall : MsanReallocate env 0 n al z s =
        .ret 0 (logged al n (extra_bytes al) none (__msan_init env s).state) := by
      rw [MsanReallocate_fresh _ _ _ _ _ _ h1 hin, body_none _ _ _ _ _ _ _ _ _ hfail, h1]
      simp [Outcome.state]
    refine ⟨hcall, ?_, ?_, ?_, ?_⟩
    · rw [hcall]; rfl
    · rw [hcall]; rfl
    · rw [hcall, h1]; exact hm
    · rw [hcall, h1]; exact hsh
  · rw [h1] at hinit
    simp [Outcome.cause] at hinit

/-- A case of C11 on the failing sample environment. -/
theorem C11_failed_allocation_returns_null_witness :
    ((__msan_init failingEnv sampleState).cause = none ∧
      failingEnv.posix_memalign 8 ((100 + extra_bytes 8) % 2 ^ 64) = none) ∧
    (MsanReallocate failingEnv 0 100 8 false sampleState).value = some 0 ∧
    (MsanReallocate failingEnv 0 100 8 false sampleState).cause = none :=
  ⟨⟨by decide, by decide⟩,
   (C11_failed_allocation_returns_null failingEnv 100 8 false sampleState
     (by decide) (by decide)).2.1,
   (C11_failed_allocation_returns_null failingEnv 100 8 false sampleState
     (by decide) (by decide)).2.2.1⟩

/-! ## The warning protocol -/

/-- In expect-mode every call of `__msan_warning()` returns and only records
that a warning was found. -/
theorem warnings_expected (k : Nat) (s : State) (h : s.msan_expect_umr ≠ 0) :
    warnings k s =
      .ret () (if k = 0 then s else { s with msan_expected_umr_found := 1 }) := by
  induction k generalizing s with
  | zero => rfl
  | succ k ih =>
    have hw : __msan_warning s = .ret () { s with msan_expected_umr_found := 1 } := by
      simp [__msan_warning, h]
    have h1 : ({ s with msan_expected_umr_found := 1 } : State).msan_expect_umr ≠ 0 := h
    simp only [warnings, hw, Outcome.andThen]
    rw [ih _ h1]
    by_cases hk : k = 0
    · simp [hk]
    · simp [hk]

/-- C12: between `__msan_set_expect_umr(1)` and the following
`__msan_set_expect_umr(0)`, none of `k` calls of `__msan_warning()` ends the
process; the closing call ends it in `Die()` exactly when `k = 0`, and for
`k ≥ 1` it returns with expect-mode off. -/
theorem C12_expect_umr_region (s : State) (k : Nat) :
    (__msan_set_expect_umr 1 s).cause = none ∧
    (warnings k (__msan_set_expect_umr 1 s).state).cause = none ∧
    ((__msan_set_expect_umr 0 (warnings k (__msan_set_expect_umr 1 s).state).state).cause
        = some Fatal.Die ↔ k = 0) ∧
    (1 ≤ k →
      (__msan_set_expect_umr 0 (warnings k (__msan_set_expect_umr 1 s).state).state).cause
        = none ∧
      (__msan_set_expect_umr 0
        (warnings k (__msan_set_expect_umr 1 s).state).state).state.msan_expect_umr = 0) := by
  have hset : __msan_set_expect_umr 1 s =
      .ret () { s with msan_expected_umr_found := 0, msan_expect_umr := 1 } := by
    simp [__msan_set_expect_umr]
  rw [hset]
  simp only [Outcome.state]
  rw [warnings_expected k _ (by simp)]
  by_cases hk : k = 0
  · subst hk
    simp [Outcome.cause, Outcome.state, __msan_set_expect_umr]
  · have hk1 : 1 ≤ k := Nat.one_le_iff_ne_zero.mpr hk
    simp [Outcome.cause, Outcome.state, __msan_set_expect_umr, hk]

/-- C13: with expect-mode off `__msan_warning()` ends the process exactly when
the exit code is not negative; after `__msan_set_exit_code` with a negative code
it returns, and only the diagnostics are added to the state; in expect-mode it
returns and only sets the warning-found flag. -/
theorem C13_warning_exit_code (s : State) :
    (s.msan_expect_umr = 0 →
      ((__msan_warning s).cause = some Fatal.Die ↔ s.msan_exit_code ≥ 0)) ∧
    (s.msan_expect_umr = 0 → ∀ code : Int, code < 0 →
      __msan_warning (__msan_set_exit_code code s) =
        .ret () { __msan_set_exit_code code s with
          out := s.out ++ [Diag.Printf "***UMR***\n", Diag.GdbBackTrace] }) ∧
    (s.msan_expect_umr ≠ 0 →
      __msan_warning s = .ret () { s with msan_expected_umr_found := 1 }) := by
  refine ⟨?_, ?_, ?_⟩
  · intro h0
    by_cases hc : s.msan_exit_code ≥ 0
    · simp [__msan_warning, h0, hc, Outcome.cause]
    · simp [__msan_warning, h0, hc, Outcome.cause]
  · intro h0 code hcode
    have hneg : ¬ code ≥ 0 := by omega
    simp [__msan_warning, __msan_set_exit_code, h0, hneg]
  · intro h
    simp [__msan_warning, h]

/-! ## Initialisation -/

/-- C14: from a state with the initialised flag clear, `__msan_init()` calls
`InitShadow` exactly when no Pin host was detected; it ends the process exactly
when that call was made and failed, and then no interceptor is installed and
the flag is still clear; otherwise it returns with the flag set to `1`.  A
return of `__msan_init()` always leaves the flag set, so `CHECK(msan_inited)`
in `MsanReallocate` never fails. -/
theorem C14_init_shadow_reservation (env : Env) (s : State) (h0 : s.msan_inited = 0) :
    ((__msan_init env s).state.InitShadow_calls =
        (if IsRunningUnderPin env = true then s.InitShadow_calls
         else s.InitShadow_calls + 1)) ∧
    ((__msan_init env s).cause = some Fatal.Die ↔
      (IsRunningUnderPin env = false ∧ env.InitShadow = false)) ∧
    ((__msan_init env s).cause ≠ none →
      (__msan_init env s).state.InitializeInterceptors_calls
        = s.InitializeInterceptors_calls ∧
      (__msan_init env s).state.msan_inited = 0) ∧
    (¬ (IsRunningUnderPin env = false ∧ env.InitShadow = false) →
      (__msan_init env s).value = some () ∧
      (__msan_init env s).state.msan_inited = 1 ∧
      (__msan_init env s).state.InitializeInterceptors_calls
        = s.InitializeInterceptors_calls + 1) ∧
    (∀ s0 s1, __msan_init env s0 = .ret () s1 → s1.msan_inited ≠ 0) ∧
    (∀ oldp size alignment zeroise,
      (MsanReallocate env oldp size alignment zeroise s).cause = some Fatal.CheckFailed →
        oldp ≠ 0 ∧ load64 s.mem (oldp - 16) &&& 0xffff ≠ kMsanMallocMagic) := by
  have hcheck : ∀ oldp size alignment zeroise,
      (MsanReallocate env oldp size alignment zeroise s).cause = some Fatal.CheckFailed →
        oldp ≠ 0 ∧ load64 s.mem (oldp - 16) &&& 0xffff ≠ kMsanMallocMagic := by
    intro oldp size alignment zeroise hc
    by_cases hgood : oldp ≠ 0 → load64 s.mem (oldp - 16) &&& 0xffff = kMsanMallocMagic
    · rw [MsanReallocate_cause env oldp size alignment zeroise s hgood] at hc
      exact absurd hc (init_cause_ne_check env s)
    · by_cases hold : oldp = 0
      · exact absurd (fun h => absurd hold h) hgood
      · exact ⟨hold, fun hm => hgood (fun _ => hm)⟩
  have hret : ∀ s0 s1, __msan_init env s0 = .ret () s1 → s1.msan_inited ≠ 0 := by
    intro s0 s1 h1
    rcases init_cases env s0 with ⟨s2, h2, hin, -⟩ | ⟨s2, h2, -⟩
    · rw [h2] at h1
      injection h1 with _ hs
      rw [← hs]; exact hin
    · rw [h2] at h1
      cases h1
  refine ⟨?_, ?_, ?_, ?_, hret, hcheck⟩
  all_goals
    unfold __msan_init
    by_cases hp : IsRunningUnderPin env = true
    · simp [h0, hp, __msan_clear_on_return, Outcome.cause, Outcome.state, Outcome.value]
    · by_cases hs : env.InitShadow = true
      · simp [h0, hp, hs, __msan_clear_on_return, Outcome.cause, Outcome.state, Outcome.value]
      · simp [h0, hp, hs, __msan_clear_on_return, Outcome.cause, Outcome.state, Outcome.value]

/-- A case of C14: the first initialisation on the sample environment. -/
theorem C14_init_shadow_reservation_witness :
    sampleState.msan_inited = 0 ∧
    (__msan_init sampleEnv sampleState).state.InitShadow_calls = 1 ∧
    (__msan_init sampleEnv sampleState).value = some () ∧
    (__msan_init sampleEnv sampleState).state.msan_inited = 1 :=
  ⟨by decide,
   ((C14_init_shadow_reservation sampleEnv sampleState (by decide)).1).trans (by decide),
   ((C14_init_shadow_reservation sampleEnv sampleState (by decide)).2.2.2.1 (by decide)).1,
   ((C14_init_shadow_reservation sampleEnv sampleState (by decide)).2.2.2.1 (by decide)).2.1⟩

/-- C15: once the initialised flag is set, `__msan_init()` returns at once and
leaves the whole state as it is (host flag, main-thread pointer, parameter
shadow, configuration, call counts of `InitShadow` and of
`InitializeInterceptors`); so from every state, `__msan_init()` followed by
`__msan_init()` is `__msan_init()`. -/
theorem C15_init_idempotent (env : Env) (s : State) :
    (s.msan_inited ≠ 0 → __msan_init env s = .ret () s) ∧
    (∀ s1, __msan_init env s = .ret () s1 → __msan_init env s1 = .ret () s1) ∧
    (__msan_init env s).andThen (fun _ => __msan_init env) = __msan_init env s := by
  have hsecond : ∀ s1, __msan_init env s = .ret () s1 → __msan_init env s1 = .ret () s1 := by
    intro s1 h1
    rcases init_cases env s with ⟨s2, h2, hin, -⟩ | ⟨s2, h2, -⟩
    · rw [h2] at h1
      injection h1 with _ hs
      rw [← hs]
      exact init_inited env s2 hin
    · rw [h2] at h1
      cases h1
  refine ⟨init_inited env s, hsecond, ?_⟩
  cases h : __msan_init env s with
  | ret v s1 =>
    simp only [Outcome.andThen]
    exact hsecond s1 h
  | fatal c s1 => rfl

/-! ## Algebra of the poison primitives -/

/-- C16: `__msan_poison(a, n)` followed by `__msan_unpoison(a, n)` leaves the
same state, and so byte for byte the same shadow, as `__msan_unpoison(a, n)`
alone. -/
theorem C16_poison_then_unpoison (env : Env) (a n : Nat) (s : State) :
    __msan_unpoison env a n (__msan_poison env a n s) = __msan_unpoison env a n s ∧
    ∀ x, (__msan_unpoison env a n (__msan_poison env a n s)).shadow x
      = (__msan_unpoison env a n s).shadow x := by
  have h : __msan_unpoison env a n (__msan_poison env a n s) = __msan_unpoison env a n s := by
    simp only [__msan_unpoison, __msan_poison]
    rw [memset_congr_outside (memset s.shadow (env.MEM_TO_SHADOW a) (-1) n) s.shadow _ _ _
      (fun x hx => memset_outside _ _ _ _ _ hx)]
  exact ⟨h, fun x => by rw [h]⟩

/-- C17: after `__msan_poison(src, n)` followed by
`__msan_copy_poison(dst, src, n)` each of the `n` shadow bytes of
`[dst, dst + n)` is `0xFF`, whatever the shadow of `dst` was and whether or
not the two ranges overlap. -/
theorem C17_copy_of_poisoned (env : Env) (dst src n : Nat) (s : State) :
    ∀ i, i < n →
      (__msan_copy_poison env dst src n (__msan_poison env src n s)).shadow
        (env.MEM_TO_SHADOW dst + i) = 0xFF := by
  intro i hi
  simp only [__msan_copy_poison, __msan_poison]
  rw [memcpy_inside _ _ _ _ _ _ hi, memset_inside _ _ _ _ _ hi]
  decide

/-- A case of C17 on the sample state: four bytes, overlapping ranges. -/
theorem C17_copy_of_poisoned_witness :
    (2 : Nat) < 4 ∧
    (__msan_copy_poison sampleEnv 0x7f0000014012 0x7f0000014010 4
      (__msan_poison sampleEnv 0x7f0000014010 4 sampleState)).shadow
        (sampleEnv.MEM_TO_SHADOW 0x7f0000014012 + 2) = 0xFF :=
  ⟨by decide,
   C17_copy_of_poisoned sampleEnv 0x7f0000014012 0x7f0000014010 4 sampleState 2 (by decide)⟩

/-! ## Layout of an allocated block -/

theorem extra_bytes_eq_max (al : Nat) : extra_bytes al = max al 16 := by
  simp only [extra_bytes]
  split <;> omega

/-- The user pointer of an aligned raw block is aligned. -/
theorem aligned_add_extra (al k m : Nat) (hal : al = 2 ^ k) (hdiv : al ∣ m) :
    al ∣ m + extra_bytes al := by
  simp only [extra_bytes]
  split
  · exact Dvd.dvd.add hdiv (dvd_refl al)
  · rename_i hle
    have h16 : al ∣ 16 := by
      have hk : k ≤ 4 := by
        by_contra hk
        have h5 : 5 ≤ k := by omega
        have : 2 ^ 5 ≤ 2 ^ k := Nat.pow_le_pow_right (by decide) h5
        omega
      rw [hal]
      exact (Nat.pow_dvd_pow_iff_le_right (by decide : 1 < 2)).mpr hk
    exact Dvd.dvd.add hdiv h16

/-- C18 (as the code has it): for a power-of-two alignment and a raw pointer
`m` that is a multiple of it, the user pointer is `p = m + max(alignment, 16)`,
`p` is a multiple of the alignment and the two header words at `[p - 16, p)`
lie at or after `m`; they end inside the raw block of
`(size + max(alignment, 16)) mod 2 ^ 64` bytes exactly when the sum does not
wrap. -/
theorem C18_user_pointer_layout (env : Env) (oldp n al p k m : Nat) (z : Bool) (s : State)
    (hal : al = 2 ^ k)
    (hres : env.posix_memalign al ((n + extra_bytes al) % 2 ^ 64) = some m)
    (hdiv : al ∣ m)
    (h : (MsanReallocate env oldp n al z s).value = some p) (hp : p ≠ 0) :
    p = m + max al 16 ∧ al ∣ p ∧ m ≤ p - 16 ∧ 16 ≤ p ∧
    (n + max al 16 < 2 ^ 64 → p ≤ m + (n + extra_bytes al) % 2 ^ 64) ∧
    (n < 2 ^ 64 → 2 ^ 64 ≤ n + max al 16 → m + (n + extra_bytes al) % 2 ^ 64 < p) := by
  obtain ⟨m1, hres1, hpm, -, -⟩ := MsanReallocate_header _ _ _ _ _ _ _ h hp
  rw [hres] at hres1
  injection hres1 with hmm
  subst hmm
  have hge := extra_bytes_ge al
  have hmax := extra_bytes_eq_max al
  refine ⟨by omega, ?_, by omega, by omega, ?_, ?_⟩
  · rw [hpm]
    exact aligned_add_extra al k m hal hdiv
  · intro hno
    rw [← hmax] at hno
    rw [Nat.mod_eq_of_lt hno]
    omega
  · intro hn hwrap
    rw [← hmax] at hwrap
    omega

/-- A case of C18 on the sample environment: 100 bytes at alignment 64. -/
theorem C18_user_pointer_layout_witness :
    ((64 : Nat) = 2 ^ 6 ∧
      sampleEnv.posix_memalign 64 ((100 + extra_bytes 64) % 2 ^ 64) = some 0x7f00000a4000 ∧
      64 ∣ 0x7f00000a4000 ∧
      (MsanReallocate sampleEnv 0 100 64 false sampleState).value = some 0x7f00000a4040) ∧
    (0x7f00000a4040 = 0x7f00000a4000 + max 64 16 ∧ 64 ∣ 0x7f00000a4040 ∧
      0x7f00000a4000 ≤ 0x7f00000a4040 - 16 ∧
      0x7f00000a4040 ≤ 0x7f00000a4000 + (100 + extra_bytes 64) % 2 ^ 64) :=
  ⟨⟨by decide, by decide, by decide, by decide⟩,
   (C18_user_pointer_layout sampleEnv 0 100 64 0x7f00000a4040 6 0x7f00000a4000 false
     sampleState (by decide) (by decide) (by decide) (by decide) (by decide)).1,
   (C18_user_pointer_layout sampleEnv 0 100 64 0x7f00000a4040 6 0x7f00000a4000 false
     sampleState (by decide) (by decide) (by decide) (by decide) (by decide)).2.1,
   (C18_user_pointer_layout sampleEnv 0 100 64 0x7f00000a4040 6 0x7f00000a4000 false
     sampleState (by decide) (by decide) (by decide) (by decide) (by decide)).2.2.1,
   (C18_user_pointer_layout sampleEnv 0 100 64 0x7f00000a4040 6 0x7f00000a4000 false
     sampleState (by decide) (by decide) (by decide) (by decide) (by decide)).2.2.2.2.1
     (by decide)⟩

/-- C18 fails as stated: with alignment `8 = 2 ^ 3`, size `2 ^ 64 - 8` and
malloc-time poisoning off, the request wraps to eight bytes; the allocator
returns the raw block `[0x7f0000008000, 0x7f0000008008)`, a multiple of 8, the
call returns `p = 0x7f0000008010`, and the header words at `[p - 16, p)` end
eight bytes past the end of the raw block. -/
theorem C18_counterexample :
    (8 : Nat) = 2 ^ 3 ∧ (2 ^ 64 - 8 : Nat) < 2 ^ 64 ∧
    (2 ^ 64 - 8 + extra_bytes 8) % 2 ^ 64 = 8 ∧
    sampleEnv.posix_memalign 8 ((2 ^ 64 - 8 + extra_bytes 8) % 2 ^ 64) = some 0x7f0000008000 ∧
    8 ∣ 0x7f0000008000 ∧
    (MsanReallocate sampleEnv 0 (2 ^ 64 - 8) 8 false noPoisonState).value
      = some 0x7f0000008010 ∧
    (MsanReallocate sampleEnv 0 (2 ^ 64 - 8) 8 false noPoisonState).state.heap
      = [HeapCall.posix_memalign 8 8 (some 0x7f0000008000)] ∧
    ¬ (0x7f0000008010 ≤ 0x7f0000008000 + (2 ^ 64 - 8 + extra_bytes 8) % 2 ^ 64) ∧
    load64 (MsanReallocate sampleEnv 0 (2 ^ 64 - 8) 8 false noPoisonState).state.mem
      0x7f0000008008 = 0x7f0000008000 := by
  decide

/-! ## Failed reallocation -/

/-- C19: when `oldp` is a live block with a valid header of recorded size
`oldSize > 0` and `posix_memalign` fails, `MsanReallocate` returns `NULL`, and
still the shadow of `[oldp, oldp + oldSize)` is unpoisoned and the old raw
pointer `oldp[-1]` is passed to the real `free`: the old block is gone. -/
theorem C19_failed_realloc_frees_old (env : Env) (oldp n al : Nat) (z : Bool) (s : State)
    (hold : oldp ≠ 0)
    (hmagic : load64 s.mem (oldp - 16) &&& 0xffff = kMsanMallocMagic)
    (hsize : 0 < load64 s.mem (oldp - 16) >>> 16)
    (hinit : (__msan_init env s).cause = none)
    (hfail : env.posix_memalign al ((n + extra_bytes al) % 2 ^ 64) = none) :
    (MsanReallocate env oldp n al z s).value = some 0 ∧
    (∀ i, i < load64 s.mem (oldp - 16) >>> 16 →
      (MsanReallocate env oldp n al z s).state.shadow (env.MEM_TO_SHADOW oldp + i) = 0x00) ∧
    (MsanReallocate env oldp n al z s).state.heap =
      s.heap ++ [HeapCall.posix_memalign al ((n + extra_bytes al) % 2 ^ 64) none,
        HeapCall.free (load64 s.mem (oldp - 8))] ∧
    (MsanReallocate env oldp n al z s).state.mem = s.mem := by
  have hheap := MsanReallocate_heap env oldp n al z s hinit (fun _ => hmagic)
  have hos : old_size_of s.mem oldp = load64 s.mem (oldp - 16) >>> 16 := by
    simp [old_size_of, hold]
  have hro : real_oldp_of s.mem oldp = load64 s.mem (oldp - 8) := by
    simp [real_oldp_of, hold]
  have hos0 : load64 s.mem (oldp - 16) >>> 16 ≠ 0 := by omega
  rw [hos, hro, hfail] at hheap
  simp only [hos0, ne_eq, not_false_eq_true, if_true] at hheap
  rcases init_cases env s with ⟨s1, h1, hin, hm, hsh, -, -⟩ | ⟨s1, h1, -⟩
  · have hcall := MsanReallocate_old env oldp n al z s s1 h1 hin hold (by rw [hm]; exact hmagic)
    rw [body_none _ _ _ _ _ _ _ _ _ hfail, hm] at hcall
    simp only [hos0, ne_eq, not_false_eq_true, if_true] at hcall
    refine ⟨?_, ?_, hheap, ?_⟩
    · rw [hcall]; rfl
    · intro i hi
      rw [hcall]
      simp only [Outcome.state]
      rw [old_block_shadow]
      simp only [ne_eq, not_true_eq_false, if_false]
      rw [memset_inside _ _ _ _ _ hi]
      decide
    · rw [hcall]
      simp only [Outcome.state]
      rw [old_block_mem]
      simp only [ne_eq, not_true_eq_false, if_false]
      exact hm
  · rw [h1] at hinit
    simp [Outcome.cause] at hinit

/-- A case of C19: the four-byte live block of the sample state is reallocated
while the allocator fails. -/
theorem C19_failed_realloc_frees_old_witness :
    ((0x7f0000014010 : Nat) ≠ 0 ∧
      load64 liveBlockState.mem (0x7f0000014010 - 16) &&& 0xffff = kMsanMallocMagic ∧
      0 < load64 liveBlockState.mem (0x7f0000014010 - 16) >>> 16 ∧
      (__msan_init failingEnv liveBlockState).cause = none ∧
      failingEnv.posix_memalign 8 ((8 + extra_bytes 8) % 2 ^ 64) = none) ∧
    (MsanReallocate failingEnv 0x7f0000014010 8 8 false liveBlockState).value = some 0 ∧
    (MsanReallocate failingEnv 0x7f0000014010 8 8 false liveBlockState).state.heap =
      liveBlockState.heap ++ [HeapCall.posix_memalign 8 ((8 + extra_bytes 8) % 2 ^ 64) none,
        HeapCall.free (load64 liveBlockState.mem (0x7f0000014010 - 8))] :=
  ⟨⟨by decide, by decide, by decide, by decide, by decide⟩,
   (C19_failed_realloc_frees_old failingEnv 0x7f0000014010 8 8 false liveBlockState
     (by decide) (by decide) (by decide) (by decide) (by decide)).1,
   (C19_failed_realloc_frees_old failingEnv 0x7f0000014010 8 8 false liveBlockState
     (by decide) (by decide) (by decide) (by decide) (by decide)).2.2.1⟩

/-! ## Extent of the writes of an allocation -/

/-- The range `fill_range` is the one the code fills: the block of lines 74 to
86 returns its start as the user pointer, zero-fills exactly that range of
memory with `zeroise`, and otherwise poisons exactly the shadow of that range
when the poison-in-malloc flag is set. -/
theorem fill_range_spec (env : Env) (n e : Nat) (z : Bool) (m : Nat) (s : State) :
    (MsanReallocate_new_block env n e z m s).1 = (fill_range n e m).1 ∧
    (fill_range n e m).2 = n ∧
    (MsanReallocate_new_block env n e z m s).2.mem =
      (if z = true then
        memset (store64 (store64 s.mem (m + e - 16) (header_word n)) (m + e - 8) m)
          (fill_range n e m).1 0 (fill_range n e m).2
      else store64 (store64 s.mem (m + e - 16) (header_word n)) (m + e - 8) m) ∧
    (MsanReallocate_new_block env n e z m s).2.shadow =
      (if z = true then s.shadow
      else if s.msan_poison_in_malloc ≠ 0 then
        memset s.shadow (env.MEM_TO_SHADOW (fill_range n e m).1) (-1) (fill_range n e m).2
      else s.shadow) := by
  have h2 : (fill_range n e m).2 = n := by
    simp [fill_range]
  have h1 : (fill_range n e m).1 = m + e := rfl
  refine ⟨rfl, h2, ?_, ?_⟩
  · rw [new_block_mem, h1, h2]
  · rw [new_block_shadow, h1, h2]

end MSan
